import Mathlib

/-!
A shallow embedding of the `colfi` collaborative-filtering library
(`colfi/colfi.go`): the `Dataset` identifier encoder, the SVD and SVD++
matrix-factorization models with their SGD training loops, grid search and
RMSE scoring.

Modelling conventions:
* Go `float64`/`float32` arithmetic is modelled by exact rational
  arithmetic (`ℚ`).  `math.Sqrt` is abstracted as an explicit function
  parameter `sqrtFn : ℚ → ℚ`, and the random matrix initializer
  `randMat` (a normal sampler) as a parameter
  `rmat : ℚ → ℚ → ℕ → ℕ → Mat`; theorems quantify over them.
* A separate small model `F64` (rationals extended with IEEE special
  values) captures the division-by-zero behaviour of `mean32` on an empty
  slice, which the pure `ℚ` embedding cannot express; on the same model,
  `randMatF`/`NewSVDF` make explicit the gonum `mat.NewDense` zero-length
  panic that the real `randMat` hits on an empty dataset.
* `log.Fatalf` and unrecovered panics, which terminate the process, are
  modelled by the `GoResult.fatal` constructor, kept distinct from the
  recoverable Go `error` values modelled by `Except.error`.
* Go maps from strings to ids are modelled as association lists kept in
  insertion order; the Go code only ever inserts fresh keys, so lookup
  behaviour agrees.  Go slices are modelled as lists; reads use `getD`,
  and all reads performed by the embedded code are in bounds under the
  dataset invariants.
-/

namespace Colfi

/-- Association-list model of a Go `map[string]int` (insertion order kept). -/
abbrev StrMap := List (String × ℕ)

/-- Lookup in a `map[string]int`: first binding of the key, if any. -/
def lookupId : StrMap → String → Option ℕ
  | [], _ => none
  | (k, v) :: rest, s => if k = s then some v else lookupId rest s

/-- Lookup in a reversed `map[int]string`. -/
def lookupStr : List (ℕ × String) → ℕ → Option String
  | [], _ => none
  | (k, v) :: rest, id' => if k = id' then some v else lookupStr rest id'

/-- Outcome of a Go computation that may terminate the process abnormally:
`fatal` models both `log.Fatalf` and an unrecovered panic (nothing in this
code recovers), neither of which returns a value to the caller. -/
inductive GoResult (α : Type) where
  | ok : α → GoResult α
  | fatal : String → GoResult α
deriving DecidableEq

/-- Dense row-major matrix (`gonum mat.Dense`) modelled as a total function;
the Go code only reads and writes in-bounds entries. -/
abbrev Mat := ℕ → ℕ → ℚ

/-- A Go `[]float64` used as a bias vector. -/
abbrev Vec := ℕ → ℚ

/-- `m.Set(r, c, v)` on a dense matrix. -/
def setM (m : Mat) (r c : ℕ) (v : ℚ) : Mat :=
  fun r' c' => if r' = r ∧ c' = c then v else m r' c'

/-- `v[r] = x` on a bias vector. -/
def setV (w : Vec) (r : ℕ) (x : ℚ) : Vec :=
  fun r' => if r' = r then x else w r'

/-- `make([]float64, n)`: all entries zero. -/
def zeroVec : Vec := fun _ => 0

/-- Go `math.Round`: round half away from zero. -/
def roundHalfAway (q : ℚ) : ℤ :=
  if q < 0 then -⌊-q + 1/2⌋ else ⌊q + 1/2⌋

/-- `mean32`: sum of the slice divided by its length (exact-arithmetic
model; the division-by-zero NaN on an empty slice is captured by
`mean32F` below). -/
def mean32 (s : List ℚ) : ℚ := s.sum / (s.length : ℚ)

/-- The `Dataset` struct: parallel arrays of encoded ids and ratings plus
the two identifier-encoding maps. -/
structure Dataset where
  users : List ℕ
  items : List ℕ
  ratings : List ℚ
  userMap : StrMap
  itemMap : StrMap
deriving DecidableEq

/-- `NewDataset`: empty parallel arrays, empty maps. -/
def NewDataset : Dataset := ⟨[], [], [], [], []⟩

/-- `Dataset.getInternalIDs`: look up or create ids for a user and an item
(the fresh id is the current map size). Returns the ids and the updated
dataset (the Go method mutates the receiver). -/
def getInternalIDs (d : Dataset) (u i : String) : (ℕ × ℕ) × Dataset :=
  let ur :=
    match lookupId d.userMap u with
    | some v => (v, d.userMap)
    | none => (d.userMap.length, d.userMap ++ [(u, d.userMap.length)])
  let ir :=
    match lookupId d.itemMap i with
    | some v => (v, d.itemMap)
    | none => (d.itemMap.length, d.itemMap ++ [(i, d.itemMap.length)])
  ((ur.1, ir.1), { d with userMap := ur.2, itemMap := ir.2 })

/-- `Dataset.Append`: encode the identifiers and push one observation onto
the parallel arrays. -/
def Dataset.Append (d : Dataset) (u i : String) (r : ℚ) : Dataset :=
  let x := getInternalIDs d u i
  { x.2 with
    users := x.2.users ++ [x.1.1]
    items := x.2.items ++ [x.1.2]
    ratings := x.2.ratings ++ [r] }

/-- Appending a list of `(user, item, rating)` triples in order. -/
def appendTriples (d : Dataset) (ts : List (String × String × ℚ)) : Dataset :=
  ts.foldl (fun d' t => d'.Append t.1 t.2.1 t.2.2) d

/-- `DatasetsFromSlices`: length and fraction validation, then split the
permuted observations into a train and a test dataset.  The permutation
produced by `rand.Perm n` is passed in explicitly as `p`.  Note the Go
code indexes the input slices at `p[j]` where `j` itself already ranges
over the entries of `p`. -/
def DatasetsFromSlices (u i : List String) (r : List ℚ) (split : ℚ) (p : List ℕ) :
    Except String (Dataset × Dataset) :=
  let n := u.length
  if n ≠ i.length ∨ u.length ≠ r.length then
    .error "u, i and r slices must be the same length"
  else if split < 0 ∨ 1 < split then
    .error "split must be between 0 and 1"
  else
    let trainNum := (roundHalfAway ((n : ℚ) * (1 - split))).toNat
    let trainset := (p.take trainNum).foldl
      (fun d j => d.Append (u.getD (p.getD j 0) "") (i.getD (p.getD j 0) "")
        (r.getD (p.getD j 0) 0)) NewDataset
    let testset := (p.drop trainNum).foldl
      (fun d j => d.Append (u.getD (p.getD j 0) "") (i.getD (p.getD j 0) "")
        (r.getD (p.getD j 0) 0)) NewDataset
    .ok (trainset, testset)

/-- The `SVDConfig` struct.  Numeric fields are rationals; `NumFactors`
is a Go `int` used only as a count. -/
structure SVDConfig where
  NumFactors : ℕ
  InitMean : ℚ
  InitStdDev : ℚ
  LR : ℚ
  Reg : ℚ
  Verbose : Bool
deriving DecidableEq

/-- The zero-value defaulting prologue shared verbatim by `NewSVD` and
`NewSVDpp`: a `nil` config becomes `&SVDConfig{}`, then every zero-valued
field is replaced by its default (factors 50, stddev 0.1, lr 0.005,
reg 0.02). -/
def withDefaults (config : Option SVDConfig) : SVDConfig :=
  let c0 := config.getD ⟨0, 0, 0, 0, 0, false⟩
  let c1 := if c0.NumFactors = 0 then { c0 with NumFactors := 50 } else c0
  let c2 := if c1.InitStdDev = 0 then { c1 with InitStdDev := 1/10 } else c1
  let c3 := if c2.LR = 0 then { c2 with LR := 5/1000 } else c2
  if c3.Reg = 0 then { c3 with Reg := 2/100 } else c3

/-- The `SVD` model struct. -/
structure SVD where
  Dataset : Dataset
  PU : Mat
  QI : Mat
  BU : Vec
  BI : Vec
  GlobalMean : ℚ
  Config : SVDConfig

/-- `NewSVD`: apply config defaults, initialize the latent matrices with
the random initializer `rmat` (abstracting `randMat`, which samples
normal values with the configured mean and stddev), zero biases, and the
global mean of the training ratings.  This total model covers datasets
with at least one user and one item; on a zero-dimension dataset the real
`randMat` panics in gonum `mat.NewDense`, which `randMatF`/`NewSVDF`
below model explicitly. -/
def NewSVD (rmat : ℚ → ℚ → ℕ → ℕ → Mat) (dataset : Dataset)
    (config : Option SVDConfig) : SVD :=
  let c := withDefaults config
  { Dataset := dataset
    PU := rmat c.InitMean c.InitStdDev dataset.userMap.length c.NumFactors
    QI := rmat c.InitMean c.InitStdDev dataset.itemMap.length c.NumFactors
    BU := zeroVec
    BI := zeroVec
    GlobalMean := mean32 dataset.ratings
    Config := c }

/-- The mutable state threaded through `SVD.Fit`'s loops. -/
structure SGDState where
  pu : Mat
  qi : Mat
  bu : Vec
  bi : Vec

/-- The inner factor loop of `SVD.Fit`: for each factor `f`, save
`puf = PU[u,f]` and `qif = QI[i,f]` and write both updated entries from
the saved values. -/
def svdFactorLoop (lr reg err : ℚ) (u i nf : ℕ) (pu qi : Mat) : Mat × Mat :=
  (List.range nf).foldl
    (fun acc f =>
      let puf := acc.1 u f
      let qif := acc.2 i f
      (setM acc.1 u f (puf + lr * (err * qif - reg * puf)),
       setM acc.2 i f (qif + lr * (err * puf - reg * qif))))
    (pu, qi)

/-- One observation of `SVD.Fit`'s inner loop: compute the dot product and
error from the current state, update both biases with the same error, then
run the factor loop. -/
def svdStep (lr reg globalMean : ℚ) (nf : ℕ) (s : SGDState) (o : ℕ × ℕ × ℚ) :
    SGDState :=
  let u := o.1
  let i := o.2.1
  let r := o.2.2
  let dot := ((List.range nf).map (fun f => s.pu u f * s.qi i f)).sum
  let err := r - (globalMean + s.bu u + s.bi i + dot)
  let bu' := setV s.bu u (s.bu u + lr * (err - reg * s.bu u))
  let bi' := setV s.bi i (s.bi i + lr * (err - reg * s.bi i))
  let pq := svdFactorLoop lr reg err u i nf s.pu s.qi
  ⟨pq.1, pq.2, bu', bi'⟩

/-- The observation stream of a dataset, in stored (insertion) order. -/
def obsList (d : Dataset) : List (ℕ × ℕ × ℚ) :=
  d.users.zip (d.items.zip d.ratings)

/-- One epoch of `SVD.Fit`: a pass over all observations in stored order. -/
def svdEpoch (lr reg globalMean : ℚ) (nf : ℕ) (obs : List (ℕ × ℕ × ℚ))
    (s : SGDState) : SGDState :=
  obs.foldl (svdStep lr reg globalMean nf) s

/-- `SVD.Fit`: `numEpochs` epochs over the training observations. -/
def SVD.Fit (m : SVD) (numEpochs : ℕ) : SVD :=
  let s := (svdEpoch m.Config.LR m.Config.Reg m.GlobalMean m.Config.NumFactors
    (obsList m.Dataset))^[numEpochs] ⟨m.PU, m.QI, m.BU, m.BI⟩
  { m with PU := s.pu, QI := s.qi, BU := s.bu, BI := s.bi }

/-- `mat.Dot` of two rows over the `nf` factor columns. -/
def dotRange (nf : ℕ) (v w : ℕ → ℚ) : ℚ :=
  ((List.range nf).map (fun f => v f * w f)).sum

/-- `SVD.Predict`: start from the global mean, add the user bias only when
the user id is known, the item bias only when the item id is known, and
the latent dot product only when both are known.  Unknown identifiers are
never an error. -/
def SVD.Predict (m : SVD) (u i : String) : ℚ :=
  let p0 := m.GlobalMean
  let ures := lookupId m.Dataset.userMap u
  let p1 :=
    match ures with
    | some uid => p0 + m.BU uid
    | none => p0
  let ires := lookupId m.Dataset.itemMap i
  let p2 :=
    match ires with
    | some iid => p1 + m.BI iid
    | none => p1
  match ures, ires with
  | some uid, some iid => p2 + dotRange m.Config.NumFactors (m.PU uid) (m.QI iid)
  | _, _ => p2

/-- The user-history index built by `NewSVDpp`: one pass over the
observations, appending each observation's item id to its user's bucket
(`iu[uid] = append(iu[uid], dataset.Items[idx])`, no deduplication). -/
def buildIU (d : Dataset) : ℕ → List ℕ :=
  (d.users.zip d.items).foldl
    (fun iu o => fun uid => if uid = o.1 then iu uid ++ [o.2] else iu uid)
    (fun _ => [])

/-- The `SVDpp` model struct: `SVD` plus the implicit-feedback factors
`YJ` and the user-history index `IU`. -/
structure SVDpp where
  Dataset : Dataset
  PU : Mat
  QI : Mat
  YJ : Mat
  BU : Vec
  BI : Vec
  IU : ℕ → List ℕ
  GlobalMean : ℚ
  Config : SVDConfig

/-- `NewSVDpp`: same defaulting and initialization as `NewSVD`, plus the
extra `YJ` matrix (sized like `QI`) and the cached user history `IU`.
The capacity hint `avgNum := len(Ratings) / len(Users)` is
performance-only and elided; like `NewSVD`, this total model covers
non-empty datasets (on an empty one the real code panics — integer
division by zero in `avgNum`, and the zero-dimension `randMat` panic
modelled by `randMatF`). -/
def NewSVDpp (rmat : ℚ → ℚ → ℕ → ℕ → Mat) (dataset : Dataset)
    (config : Option SVDConfig) : SVDpp :=
  let c := withDefaults config
  { Dataset := dataset
    PU := rmat c.InitMean c.InitStdDev dataset.userMap.length c.NumFactors
    QI := rmat c.InitMean c.InitStdDev dataset.itemMap.length c.NumFactors
    YJ := rmat c.InitMean c.InitStdDev dataset.itemMap.length c.NumFactors
    BU := zeroVec
    BI := zeroVec
    IU := buildIU dataset
    GlobalMean := mean32 dataset.ratings
    Config := c }

/-- The mutable state threaded through `SVDpp.Fit`'s loops. -/
structure SGDppState where
  pu : Mat
  qi : Mat
  yj : Mat
  bu : Vec
  bi : Vec

/-- `uImpFdb[f]`: accumulate `YJ[item,f] / sqrtU` over the user history. -/
def uImpFdbOf (sqrtFn : ℚ → ℚ) (yj : Mat) (hist : List ℕ) (f : ℕ) : ℚ :=
  let sqrtU := sqrtFn (hist.length : ℚ)
  (hist.map (fun item => yj item f / sqrtU)).sum

/-- The inner factor loop of `SVDpp.Fit`: per factor, update `PU[u,f]` and
`QI[i,f]` from the saved pre-update values, then sweep the whole user
history updating `YJ[item,f]` with `errQIF = err·qif/sqrtU`. -/
def sppFactorLoop (sqrtFn : ℚ → ℚ) (lr reg err : ℚ) (u i nf : ℕ)
    (hist : List ℕ) (uImp : ℕ → ℚ) (pu qi yj : Mat) : Mat × Mat × Mat :=
  let sqrtU := sqrtFn (hist.length : ℚ)
  (List.range nf).foldl
    (fun acc f =>
      let puf := acc.1 u f
      let qif := acc.2.1 i f
      let pu' := setM acc.1 u f (puf + lr * (err * qif - reg * puf))
      let qi' := setM acc.2.1 i f (qif + lr * (err * (puf + uImp f) - reg * qif))
      let errQIF := err * qif / sqrtU
      let yj' := hist.foldl
        (fun ym item => setM ym item f (ym item f + lr * (errQIF - reg * ym item f)))
        acc.2.2
      (pu', qi', yj'))
    (pu, qi, yj)

/-- One observation of `SVDpp.Fit`'s inner loop: compute the implicit
feedback vector from the pre-update `YJ`, the augmented dot product and
error, update the biases, then run the factor loop. -/
def sppStep (sqrtFn : ℚ → ℚ) (lr reg globalMean : ℚ) (nf : ℕ)
    (iu : ℕ → List ℕ) (s : SGDppState) (o : ℕ × ℕ × ℚ) : SGDppState :=
  let u := o.1
  let i := o.2.1
  let r := o.2.2
  let hist := iu u
  let uImp := uImpFdbOf sqrtFn s.yj hist
  let dot := ((List.range nf).map (fun f => (s.pu u f + uImp f) * s.qi i f)).sum
  let err := r - (globalMean + s.bu u + s.bi i + dot)
  let bu' := setV s.bu u (s.bu u + lr * (err - reg * s.bu u))
  let bi' := setV s.bi i (s.bi i + lr * (err - reg * s.bi i))
  let t := sppFactorLoop sqrtFn lr reg err u i nf hist uImp s.pu s.qi s.yj
  ⟨t.1, t.2.1, t.2.2, bu', bi'⟩

/-- One epoch of `SVDpp.Fit`. -/
def sppEpoch (sqrtFn : ℚ → ℚ) (lr reg globalMean : ℚ) (nf : ℕ)
    (iu : ℕ → List ℕ) (obs : List (ℕ × ℕ × ℚ)) (s : SGDppState) : SGDppState :=
  obs.foldl (sppStep sqrtFn lr reg globalMean nf iu) s

/-- `SVDpp.Fit`: `numEpochs` epochs over the training observations. -/
def SVDpp.Fit (sqrtFn : ℚ → ℚ) (m : SVDpp) (numEpochs : ℕ) : SVDpp :=
  let s := (sppEpoch sqrtFn m.Config.LR m.Config.Reg m.GlobalMean
      m.Config.NumFactors m.IU (obsList m.Dataset))^[numEpochs]
    ⟨m.PU, m.QI, m.YJ, m.BU, m.BI⟩
  { m with PU := s.pu, QI := s.qi, YJ := s.yj, BU := s.bu, BI := s.bi }

/-- `SVDpp.Predict`: bias fallbacks as in `SVD.Predict`; when both ids are
known, sum the `YJ` rows over the user history, scale by
`1/sqrt(|history|)`, add the item's `QI` row and dot with the user's `PU`
row. -/
def SVDpp.Predict (sqrtFn : ℚ → ℚ) (m : SVDpp) (u i : String) : ℚ :=
  let p0 := m.GlobalMean
  let ures := lookupId m.Dataset.userMap u
  let p1 :=
    match ures with
    | some uid => p0 + m.BU uid
    | none => p0
  let ires := lookupId m.Dataset.itemMap i
  let p2 :=
    match ires with
    | some iid => p1 + m.BI iid
    | none => p1
  match ures, ires with
  | some uid, some iid =>
    let hist := m.IU uid
    let uImp : ℕ → ℚ := fun f =>
      (1 / sqrtFn (hist.length : ℚ)) * (hist.map (fun item => m.YJ item f)).sum
    p2 + dotRange m.Config.NumFactors (m.PU uid) (fun f => uImp f + m.QI iid f)
  | _, _ => p2

/-- The `GridSearchParams` struct: candidate value lists. -/
structure GridSearchParams where
  NumEpochs : List ℕ
  NumFactors : List ℕ
  Reg : List ℚ
  LR : List ℚ
  InitStdDev : List ℚ
deriving DecidableEq

/-- The `GridSearchTestResult` struct.  The wall-clock `Runtime` field is
real time and is not modelled. -/
structure GridSearchTestResult where
  NumEpochs : ℕ
  NumFactors : ℕ
  Reg : ℚ
  LR : ℚ
  InitStdDev : ℚ
  Loss : ℚ
deriving DecidableEq

/-- `reverseMap`: invert a string-to-id map.  The Go map iteration order is
arbitrary, but the encoder only produces injective maps, on which the
resulting lookup function is order-independent. -/
def reverseMap (m : StrMap) : List (ℕ × String) :=
  m.map (fun kv => (kv.2, kv.1))

/-- `RMSE`: `log.Fatalf` (process termination) on unequal lengths,
otherwise the square root of the mean squared difference. -/
def RMSE (sqrtFn : ℚ → ℚ) (pred actual : List ℚ) : GoResult ℚ :=
  let n := pred.length
  if n ≠ actual.length then
    .fatal "pred and actual slices must be the same length"
  else
    .ok (sqrtFn (((pred.zip actual).map (fun pa => (pa.1 - pa.2) ^ 2)).sum / (n : ℚ)))

/-- The prediction-collection loop of `testModel`: resolve each test
observation's ids through the reverse maps (`log.Fatalf` when a lookup
fails) and collect predicted and actual values. -/
def collectPreds (m : SVD) (testset : Dataset)
    (userReverseMap itemReverseMap : List (ℕ × String)) :
    GoResult (List ℚ × List ℚ) :=
  (obsList testset).foldl
    (fun acc o =>
      match acc with
      | .fatal msg => .fatal msg
      | .ok pa =>
        match lookupStr userReverseMap o.1 with
        | none => .fatal "user id not found in reverse map"
        | some u =>
          match lookupStr itemReverseMap o.2.1 with
          | none => .fatal "item id not found in reverse map"
          | some i => .ok (pa.1 ++ [m.Predict u i], pa.2 ++ [o.2.2]))
    (.ok ([], []))

/-- `testModel`: train a fresh `SVD` on the train dataset with the given
config, predict every test observation through the original string
identifiers, and return the RMSE. -/
def testModel (sqrtFn : ℚ → ℚ) (rmat : ℚ → ℚ → ℕ → ℕ → Mat)
    (trainset testset : Dataset) (numEpochs : ℕ) (config : SVDConfig)
    (userReverseMap itemReverseMap : List (ℕ × String)) : GoResult ℚ :=
  let m := (NewSVD rmat trainset (some config)).Fit numEpochs
  match collectPreds m testset userReverseMap itemReverseMap with
  | .fatal msg => .fatal msg
  | .ok pa => RMSE sqrtFn pa.1 pa.2

/-- `GridSearch`: `log.Fatalln` when the cross product is empty, otherwise
run `testModel` for every combination in nested order (epochs outermost,
init stddev innermost), appending one result record per combination. -/
def GridSearch (sqrtFn : ℚ → ℚ) (rmat : ℚ → ℚ → ℕ → ℕ → Mat)
    (trainset testset : Dataset) (p : GridSearchParams) :
    GoResult (List GridSearchTestResult) :=
  let numTests := p.NumEpochs.length * p.NumFactors.length * p.Reg.length *
    p.LR.length * p.InitStdDev.length
  if numTests < 1 then
    .fatal "GridSearch: all parameters must have at least one test value"
  else
    let userReverseMap := reverseMap testset.userMap
    let itemReverseMap := reverseMap testset.itemMap
    p.NumEpochs.foldl (fun acc numEpochs =>
      p.NumFactors.foldl (fun acc numFactors =>
        p.Reg.foldl (fun acc reg =>
          p.LR.foldl (fun acc lr =>
            p.InitStdDev.foldl (fun acc initStdDev =>
              match acc with
              | .fatal msg => .fatal msg
              | .ok tests =>
                let config : SVDConfig :=
                  { NumFactors := numFactors, InitMean := 0,
                    InitStdDev := initStdDev, LR := lr, Reg := reg,
                    Verbose := false }
                match testModel sqrtFn rmat trainset testset numEpochs config
                    userReverseMap itemReverseMap with
                | .fatal msg => .fatal msg
                | .ok loss =>
                  .ok (tests ++ [⟨numEpochs, numFactors, reg, lr, initStdDev, loss⟩]))
              acc)
            acc)
          acc)
        acc)
      (.ok [])

/-- Go `float64` refined just enough to capture IEEE special values:
exact rational values plus NaN and signed infinity (`inf true` is `+Inf`).
Arithmetic on finite values is exact. -/
inductive F64 where
  | nan : F64
  | inf : Bool → F64
  | val : ℚ → F64
deriving DecidableEq

/-- IEEE addition on `F64`. -/
def F64.add : F64 → F64 → F64
  | .val a, .val b => .val (a + b)
  | .inf s, .val _ => .inf s
  | .val _, .inf s => .inf s
  | .inf s, .inf t => if s = t then .inf s else .nan
  | _, _ => .nan

/-- IEEE multiplication on `F64`. -/
def F64.mul : F64 → F64 → F64
  | .val a, .val b => .val (a * b)
  | .inf s, .val b => if b = 0 then .nan else .inf (s = (0 < b))
  | .val a, .inf s => if a = 0 then .nan else .inf (s = (0 < a))
  | .inf s, .inf t => .inf (s = t)
  | _, _ => .nan

/-- IEEE division on `F64`: `0/0` is NaN, `a/0` is signed infinity. -/
def F64.div : F64 → F64 → F64
  | .val a, .val b =>
    if b = 0 then
      if a = 0 then .nan else .inf (0 < a)
    else .val (a / b)
  | .inf s, .val b => if b = 0 then .inf s else .inf (s = (0 ≤ b))
  | .val _, .inf _ => .val 0
  | _, _ => .nan

/-- `mean32` under `F64` semantics: the float sum of the ratings (exact,
the inputs are finite) divided by the float length; on an empty slice this
is `0/0 = NaN`. -/
def mean32F (s : List ℚ) : F64 :=
  F64.div (.val s.sum) (.val (s.length : ℚ))

/-- The `SVD` model under `F64` semantics (used to track the NaN global
mean of a model built from an empty dataset). -/
structure SVDF where
  Dataset : Dataset
  PU : ℕ → ℕ → F64
  QI : ℕ → ℕ → F64
  BU : ℕ → F64
  BI : ℕ → F64
  GlobalMean : F64
  Config : SVDConfig

/-- `randMat` under `F64` semantics, with the allocation behaviour of the
backing gonum call made explicit: `randMat` ends in `mat.NewDense(r, c, data)`,
and `mat.NewDense` panics with `ErrZeroLength` ("mat: zero length in matrix
dimension") when either dimension is zero, so `randMat` inherits that panic.
Only the sampled entries stay abstracted, via `rnd`. -/
def randMatF (rnd : ℚ → ℚ → ℕ → ℕ → (ℕ → ℕ → F64)) (mean stdDev : ℚ)
    (r c : ℕ) : GoResult (ℕ → ℕ → F64) :=
  if r = 0 ∨ c = 0 then .fatal "mat: zero length in matrix dimension"
  else .ok (rnd mean stdDev r c)

/-- `NewSVD` under `F64` semantics.  The struct literal's fields are
evaluated in source order, so the `randMat` call for `PU` runs first; on a
dataset with no users (or no items) it panics and construction aborts
before `GlobalMean` is computed. -/
def NewSVDF (rnd : ℚ → ℚ → ℕ → ℕ → (ℕ → ℕ → F64)) (dataset : Dataset)
    (config : Option SVDConfig) : GoResult SVDF :=
  let c := withDefaults config
  match randMatF rnd c.InitMean c.InitStdDev dataset.userMap.length c.NumFactors with
  | .fatal msg => .fatal msg
  | .ok pu =>
    match randMatF rnd c.InitMean c.InitStdDev dataset.itemMap.length c.NumFactors with
    | .fatal msg => .fatal msg
    | .ok qi =>
      .ok { Dataset := dataset
            PU := pu
            QI := qi
            BU := fun _ => .val 0
            BI := fun _ => .val 0
            GlobalMean := mean32F dataset.ratings
            Config := c }

/-- `mat.Dot` under `F64` semantics: left-to-right accumulation. -/
def dotRangeF (nf : ℕ) (v w : ℕ → F64) : F64 :=
  (List.range nf).foldl (fun acc f => acc.add ((v f).mul (w f))) (.val 0)

/-- `SVD.Predict` under `F64` semantics. -/
def SVDF.Predict (m : SVDF) (u i : String) : F64 :=
  let p0 := m.GlobalMean
  let ures := lookupId m.Dataset.userMap u
  let p1 :=
    match ures with
    | some uid => p0.add (m.BU uid)
    | none => p0
  let ires := lookupId m.Dataset.itemMap i
  let p2 :=
    match ires with
    | some iid => p1.add (m.BI iid)
    | none => p1
  match ures, ires with
  | some uid, some iid => p2.add (dotRangeF m.Config.NumFactors (m.PU uid) (m.QI iid))
  | _, _ => p2

/-!  Specification-side definitions, written from the spec's wording, to
be compared with the source-translated functions above. -/

/-- Spec side: the cross product of the five hyperparameter lists in the
documented nested order (epochs outer → factors → reg → lr → init-stddev
innermost), one result record per combination with the given loss. -/
def gridResults (lossOf : ℕ → ℕ → ℚ → ℚ → ℚ → ℚ) (p : GridSearchParams) :
    List GridSearchTestResult :=
  p.NumEpochs.flatMap fun numEpochs =>
    p.NumFactors.flatMap fun numFactors =>
      p.Reg.flatMap fun reg =>
        p.LR.flatMap fun lr =>
          p.InitStdDev.map fun initStdDev =>
            ⟨numEpochs, numFactors, reg, lr, initStdDev,
              lossOf numEpochs numFactors reg lr initStdDev⟩

/-- Spec side: the distinct elements of a list in first-seen order. -/
def seenOrder (xs : List String) : List String :=
  xs.foldl (fun acc x => if x ∈ acc then acc else acc ++ [x]) []

/-- Spec side: the map that assigns id `k` to the `(k+1)`-st string of a
list, starting from id `k0`. -/
def enumFrom (k0 : ℕ) : List String → StrMap
  | [] => []
  | x :: xs => (x, k0) :: enumFrom (k0 + 1) xs

/-- Mapping the non-fatal outcome of a `GoResult`. -/
def GoResult.mapOk {α β : Type} (f : α → β) : GoResult α → GoResult β
  | .ok a => .ok (f a)
  | .fatal msg => .fatal msg

/-! ### Helper lemmas -/

theorem sum_range_list (n : ℕ) (g : ℕ → ℚ) :
    ((List.range n).map g).sum = ∑ f ∈ Finset.range n, g f := by
  induction n with
  | zero => simp
  | succ m ih =>
    rw [List.range_succ, Finset.sum_range_succ, List.map_append, List.sum_append, ih]
    simp

theorem svdFactorLoop_apply (lr reg err : ℚ) (u i : ℕ) (pu qi : Mat) :
    ∀ (nf r c : ℕ),
      ((svdFactorLoop lr reg err u i nf pu qi).1 r c =
        if r = u ∧ c < nf then pu u c + lr * (err * qi i c - reg * pu u c)
        else pu r c) ∧
      ((svdFactorLoop lr reg err u i nf pu qi).2 r c =
        if r = i ∧ c < nf then qi i c + lr * (err * pu u c - reg * qi i c)
        else qi r c) := by
  intro nf
  induction nf with
  | zero => intro r c; constructor <;> simp [svdFactorLoop]
  | succ n ih =>
    have hA1 : (svdFactorLoop lr reg err u i n pu qi).1 u n = pu u n := by
      rw [(ih u n).1]; simp
    have hA2 : (svdFactorLoop lr reg err u i n pu qi).2 i n = qi i n := by
      rw [(ih i n).2]; simp
    have hstep : svdFactorLoop lr reg err u i (n + 1) pu qi =
        (setM (svdFactorLoop lr reg err u i n pu qi).1 u n
           ((svdFactorLoop lr reg err u i n pu qi).1 u n +
             lr * (err * (svdFactorLoop lr reg err u i n pu qi).2 i n -
               reg * (svdFactorLoop lr reg err u i n pu qi).1 u n)),
         setM (svdFactorLoop lr reg err u i n pu qi).2 i n
           ((svdFactorLoop lr reg err u i n pu qi).2 i n +
             lr * (err * (svdFactorLoop lr reg err u i n pu qi).1 u n -
               reg * (svdFactorLoop lr reg err u i n pu qi).2 i n))) := by
      simp [svdFactorLoop, List.range_succ]
    intro r c
    rw [hstep]
    constructor
    · simp only [setM, hA1, hA2]
      by_cases hr : r = u
      · by_cases hc : c = n
        · rw [if_pos ⟨hr, hc⟩, if_pos ⟨hr, by omega⟩, hc]
        · rw [if_neg (fun h => hc h.2), (ih r c).1]
          by_cases hcn : c < n
          · rw [if_pos ⟨hr, hcn⟩, if_pos ⟨hr, by omega⟩]
          · rw [if_neg (fun h => hcn h.2), if_neg (fun h => absurd h.2 (by omega))]
      · rw [if_neg (fun h => hr h.1), (ih r c).1, if_neg (fun h => hr h.1),
          if_neg (fun h => hr h.1)]
    · simp only [setM, hA1, hA2]
      by_cases hr : r = i
      · by_cases hc : c = n
        · rw [if_pos ⟨hr, hc⟩, if_pos ⟨hr, by omega⟩, hc]
        · rw [if_neg (fun h => hc h.2), (ih r c).2]
          by_cases hcn : c < n
          · rw [if_pos ⟨hr, hcn⟩, if_pos ⟨hr, by omega⟩]
          · rw [if_neg (fun h => hcn h.2), if_neg (fun h => absurd h.2 (by omega))]
      · rw [if_neg (fun h => hr h.1), (ih r c).2, if_neg (fun h => hr h.1),
          if_neg (fun h => hr h.1)]

/-- C1: `SVD.Fit` runs `numEpochs` full passes over the training
observations in stored insertion order (no shuffling); each observation
computes `err` from the pre-update state, updates both biases by
`lr·(err − reg·bias)` with that error, and updates `PU[u,f]` and
`QI[i,f]` simultaneously from the pre-update values of both; on the
single-rating example (`r = 5`, `global_mean = 3`, zero biases and latent
entries, `lr = 0.005`, `reg = 0.02`), one `Fit 1` yields
`BU[0] = BI[0] = 1/100` and `PU[0,f] = 0` for all `f`. -/
theorem svd_fit_update_equations :
    (∀ m : SVD, m.Fit 0 = m) ∧
    (∀ (m : SVD) (n : ℕ), m.Fit (n + 1) = (m.Fit n).Fit 1) ∧
    (∀ m : SVD, m.Fit 1 = { m with
      PU := ((obsList m.Dataset).foldl
        (svdStep m.Config.LR m.Config.Reg m.GlobalMean m.Config.NumFactors)
        ⟨m.PU, m.QI, m.BU, m.BI⟩).pu
      QI := ((obsList m.Dataset).foldl
        (svdStep m.Config.LR m.Config.Reg m.GlobalMean m.Config.NumFactors)
        ⟨m.PU, m.QI, m.BU, m.BI⟩).qi
      BU := ((obsList m.Dataset).foldl
        (svdStep m.Config.LR m.Config.Reg m.GlobalMean m.Config.NumFactors)
        ⟨m.PU, m.QI, m.BU, m.BI⟩).bu
      BI := ((obsList m.Dataset).foldl
        (svdStep m.Config.LR m.Config.Reg m.GlobalMean m.Config.NumFactors)
        ⟨m.PU, m.QI, m.BU, m.BI⟩).bi }) ∧
    (∀ (lr reg gm : ℚ) (nf : ℕ) (s : SGDState) (u i : ℕ) (r : ℚ),
      (svdStep lr reg gm nf s (u, i, r)).bu u =
        s.bu u + lr * ((r - (gm + s.bu u + s.bi i +
          ∑ f ∈ Finset.range nf, s.pu u f * s.qi i f)) - reg * s.bu u) ∧
      (svdStep lr reg gm nf s (u, i, r)).bi i =
        s.bi i + lr * ((r - (gm + s.bu u + s.bi i +
          ∑ f ∈ Finset.range nf, s.pu u f * s.qi i f)) - reg * s.bi i) ∧
      (∀ v, v ≠ u → (svdStep lr reg gm nf s (u, i, r)).bu v = s.bu v) ∧
      (∀ v, v ≠ i → (svdStep lr reg gm nf s (u, i, r)).bi v = s.bi v) ∧
      (∀ f, f < nf →
        (svdStep lr reg gm nf s (u, i, r)).pu u f =
          s.pu u f + lr * ((r - (gm + s.bu u + s.bi i +
            ∑ g ∈ Finset.range nf, s.pu u g * s.qi i g)) * s.qi i f - reg * s.pu u f) ∧
        (svdStep lr reg gm nf s (u, i, r)).qi i f =
          s.qi i f + lr * ((r - (gm + s.bu u + s.bi i +
            ∑ g ∈ Finset.range nf, s.pu u g * s.qi i g)) * s.pu u f - reg * s.qi i f)) ∧
      (∀ r' c, ¬(r' = u ∧ c < nf) → (svdStep lr reg gm nf s (u, i, r)).pu r' c = s.pu r' c) ∧
      (∀ r' c, ¬(r' = i ∧ c < nf) → (svdStep lr reg gm nf s (u, i, r)).qi r' c = s.qi r' c)) ∧
    (∀ nf f : ℕ,
      ((⟨⟨[0], [0], [5], [("u0", 0)], [("i0", 0)]⟩, fun _ _ => 0, fun _ _ => 0,
          zeroVec, zeroVec, 3, ⟨nf, 0, 1/10, 5/1000, 2/100, false⟩⟩ : SVD).Fit 1).BU 0 = 1/100 ∧
      ((⟨⟨[0], [0], [5], [("u0", 0)], [("i0", 0)]⟩, fun _ _ => 0, fun _ _ => 0,
          zeroVec, zeroVec, 3, ⟨nf, 0, 1/10, 5/1000, 2/100, false⟩⟩ : SVD).Fit 1).BI 0 = 1/100 ∧
      ((⟨⟨[0], [0], [5], [("u0", 0)], [("i0", 0)]⟩, fun _ _ => 0, fun _ _ => 0,
          zeroVec, zeroVec, 3, ⟨nf, 0, 1/10, 5/1000, 2/100, false⟩⟩ : SVD).Fit 1).PU 0 f = 0) := by
  have hstep : ∀ (lr reg gm : ℚ) (nf : ℕ) (s : SGDState) (u i : ℕ) (r : ℚ),
      (svdStep lr reg gm nf s (u, i, r)).bu u =
        s.bu u + lr * ((r - (gm + s.bu u + s.bi i +
          ∑ f ∈ Finset.range nf, s.pu u f * s.qi i f)) - reg * s.bu u) ∧
      (svdStep lr reg gm nf s (u, i, r)).bi i =
        s.bi i + lr * ((r - (gm + s.bu u + s.bi i +
          ∑ f ∈ Finset.range nf, s.pu u f * s.qi i f)) - reg * s.bi i) ∧
      (∀ v, v ≠ u → (svdStep lr reg gm nf s (u, i, r)).bu v = s.bu v) ∧
      (∀ v, v ≠ i → (svdStep lr reg gm nf s (u, i, r)).bi v = s.bi v) ∧
      (∀ f, f < nf →
        (svdStep lr reg gm nf s (u, i, r)).pu u f =
          s.pu u f + lr * ((r - (gm + s.bu u + s.bi i +
            ∑ g ∈ Finset.range nf, s.pu u g * s.qi i g)) * s.qi i f - reg * s.pu u f) ∧
        (svdStep lr reg gm nf s (u, i, r)).qi i f =
          s.qi i f + lr * ((r - (gm + s.bu u + s.bi i +
            ∑ g ∈ Finset.range nf, s.pu u g * s.qi i g)) * s.pu u f - reg * s.qi i f)) ∧
      (∀ r' c, ¬(r' = u ∧ c < nf) → (svdStep lr reg gm nf s (u, i, r)).pu r' c = s.pu r' c) ∧
      (∀ r' c, ¬(r' = i ∧ c < nf) → (svdStep lr reg gm nf s (u, i, r)).qi r' c = s.qi r' c) := by
    intro lr reg gm nf s u i r
    simp only [svdStep, sum_range_list, setV]
    refine ⟨by simp, by simp, ?_, ?_, ?_, ?_, ?_⟩
    · intro v hv
      simp [if_neg hv]
    · intro v hv
      simp [if_neg hv]
    · intro f hf
      constructor
      · rw [(svdFactorLoop_apply lr reg _ u i s.pu s.qi nf u f).1, if_pos ⟨rfl, hf⟩]
      · rw [(svdFactorLoop_apply lr reg _ u i s.pu s.qi nf i f).2, if_pos ⟨rfl, hf⟩]
    · intro r' c h
      rw [(svdFactorLoop_apply lr reg _ u i s.pu s.qi nf r' c).1, if_neg h]
    · intro r' c h
      rw [(svdFactorLoop_apply lr reg _ u i s.pu s.qi nf r' c).2, if_neg h]
  refine ⟨?_, ?_, ?_, hstep, ?_⟩
  · intro m
    rfl
  · intro m n
    simp only [SVD.Fit, Function.iterate_succ_apply', Function.iterate_one,
      Function.iterate_zero_apply]
  · intro m
    simp only [SVD.Fit, svdEpoch, Function.iterate_one]
  · intro nf f
    obtain ⟨hbu, hbi, _, _, hppq, hpuout, _⟩ :=
      hstep (5/1000) (2/100) 3 nf ⟨fun _ _ => 0, fun _ _ => 0, zeroVec, zeroVec⟩ 0 0 5
    refine ⟨?_, ?_, ?_⟩
    · show (svdStep (5/1000) (2/100) 3 nf
        ⟨fun _ _ => 0, fun _ _ => 0, zeroVec, zeroVec⟩ (0, 0, 5)).bu 0 = 1/100
      rw [hbu]
      simp [zeroVec]
      norm_num
    · show (svdStep (5/1000) (2/100) 3 nf
        ⟨fun _ _ => 0, fun _ _ => 0, zeroVec, zeroVec⟩ (0, 0, 5)).bi 0 = 1/100
      rw [hbi]
      simp [zeroVec]
      norm_num
    · show (svdStep (5/1000) (2/100) 3 nf
        ⟨fun _ _ => 0, fun _ _ => 0, zeroVec, zeroVec⟩ (0, 0, 5)).pu 0 f = 0
      by_cases hf : f < nf
      · rw [(hppq f hf).1]
        simp
      · rw [hpuout 0 f (fun h => hf h.2)]

/-- Witness for C1: the concrete single-rating instance at `nf = 1`. -/
theorem svd_fit_update_equations_witness :
    ((⟨⟨[0], [0], [5], [("u0", 0)], [("i0", 0)]⟩, fun _ _ => 0, fun _ _ => 0,
        zeroVec, zeroVec, 3, ⟨1, 0, 1/10, 5/1000, 2/100, false⟩⟩ : SVD).Fit 1).BU 0 = 1/100 ∧
    ((⟨⟨[0], [0], [5], [("u0", 0)], [("i0", 0)]⟩, fun _ _ => 0, fun _ _ => 0,
        zeroVec, zeroVec, 3, ⟨1, 0, 1/10, 5/1000, 2/100, false⟩⟩ : SVD).Fit 1).PU 0 0 = 0 :=
  ⟨(svd_fit_update_equations.2.2.2.2 1 0).1, (svd_fit_update_equations.2.2.2.2 1 0).2.2⟩

/-- C3: for both model variants, `Predict` adds the user bias only when
the user string is known to the model's dataset, the item bias only when
the item string is known, and the latent term only when both are known;
both unknown yields exactly the global mean, and unknown identifiers are
handled by the total function, never as an error. -/
theorem predict_unknown_fallback :
    (∀ (m : SVD) (u i : String),
      (lookupId m.Dataset.userMap u = none → lookupId m.Dataset.itemMap i = none →
        m.Predict u i = m.GlobalMean) ∧
      (∀ uid, lookupId m.Dataset.userMap u = some uid →
        lookupId m.Dataset.itemMap i = none →
        m.Predict u i = m.GlobalMean + m.BU uid) ∧
      (∀ iid, lookupId m.Dataset.userMap u = none →
        lookupId m.Dataset.itemMap i = some iid →
        m.Predict u i = m.GlobalMean + m.BI iid) ∧
      (∀ uid iid, lookupId m.Dataset.userMap u = some uid →
        lookupId m.Dataset.itemMap i = some iid →
        m.Predict u i = m.GlobalMean + m.BU uid + m.BI iid +
          dotRange m.Config.NumFactors (m.PU uid) (m.QI iid))) ∧
    (∀ (sqrtFn : ℚ → ℚ) (m : SVDpp) (u i : String),
      (lookupId m.Dataset.userMap u = none → lookupId m.Dataset.itemMap i = none →
        SVDpp.Predict sqrtFn m u i = m.GlobalMean) ∧
      (∀ uid, lookupId m.Dataset.userMap u = some uid →
        lookupId m.Dataset.itemMap i = none →
        SVDpp.Predict sqrtFn m u i = m.GlobalMean + m.BU uid) ∧
      (∀ iid, lookupId m.Dataset.userMap u = none →
        lookupId m.Dataset.itemMap i = some iid →
        SVDpp.Predict sqrtFn m u i = m.GlobalMean + m.BI iid) ∧
      (∀ uid iid, lookupId m.Dataset.userMap u = some uid →
        lookupId m.Dataset.itemMap i = some iid →
        SVDpp.Predict sqrtFn m u i = m.GlobalMean + m.BU uid + m.BI iid +
          dotRange m.Config.NumFactors (m.PU uid)
            (fun f => (1 / sqrtFn ((m.IU uid).length : ℚ)) *
              ((m.IU uid).map (fun item => m.YJ item f)).sum + m.QI iid f))) := by
  constructor
  · intro m u i
    refine ⟨?_, ?_, ?_, ?_⟩
    · intro hu hi
      simp [SVD.Predict, hu, hi]
    · intro uid hu hi
      simp [SVD.Predict, hu, hi]
    · intro iid hu hi
      simp [SVD.Predict, hu, hi]
    · intro uid iid hu hi
      simp [SVD.Predict, hu, hi, add_assoc]
  · intro sqrtFn m u i
    refine ⟨?_, ?_, ?_, ?_⟩
    · intro hu hi
      simp [SVDpp.Predict, hu, hi]
    · intro uid hu hi
      simp [SVDpp.Predict, hu, hi]
    · intro iid hu hi
      simp [SVDpp.Predict, hu, hi]
    · intro uid iid hu hi
      simp [SVDpp.Predict, hu, hi, add_assoc]

/-- Witness for C3: a model over an empty dataset predicts exactly its
global mean for unknown identifiers. -/
theorem predict_unknown_fallback_witness :
    SVD.Predict ⟨NewDataset, fun _ _ => 0, fun _ _ => 0, zeroVec, zeroVec, 7,
      ⟨1, 0, 1/10, 5/1000, 2/100, false⟩⟩ "x" "y" = 7 :=
  (predict_unknown_fallback.1 _ "x" "y").1 rfl rfl

/-- Counterexample for C4: on mismatched lengths `RMSE` does not return a
recoverable error value — it terminates the process via `log.Fatalf`
(modelled by `GoResult.fatal`). -/
theorem rmse_mismatch_cex :
    RMSE id [0] [] = GoResult.fatal "pred and actual slices must be the same length" := by
  rfl

/-- C4 (amended): when the lengths are equal `RMSE` returns
`sqrt((1/n)·Σ (pred_k − actual_k)²)`; when they differ the process is
terminated by a fatal log, not a recoverable typed error. -/
theorem rmse_spec (sqrtFn : ℚ → ℚ) (pred actual : List ℚ) :
    (pred.length = actual.length →
      RMSE sqrtFn pred actual = .ok (sqrtFn
        (((pred.zip actual).map (fun pa => (pa.1 - pa.2) ^ 2)).sum / (pred.length : ℚ)))) ∧
    (pred.length ≠ actual.length →
      RMSE sqrtFn pred actual = .fatal "pred and actual slices must be the same length") := by
  constructor <;> intro h <;> simp [RMSE, h]

/-- Witness for C4. -/
theorem rmse_spec_witness :
    RMSE id [1, 2, 3] [1, 2, 3] = GoResult.ok 0 ∧
    RMSE id [0, 0] [0] = GoResult.fatal "pred and actual slices must be the same length" := by
  constructor
  · have h := (rmse_spec id [1, 2, 3] [1, 2, 3]).1 rfl
    rw [h]
    norm_num
  · exact (rmse_spec id [0, 0] [0]).2 (by decide)

theorem buildIU_foldl (L : List (ℕ × ℕ)) :
    ∀ (acc : ℕ → List ℕ) (uid : ℕ),
      (L.foldl (fun iu o => fun v => if v = o.1 then iu v ++ [o.2] else iu v) acc) uid =
        acc uid ++ (L.filter (fun o => o.1 = uid)).map Prod.snd := by
  induction L with
  | nil => intro acc uid; simp
  | cons o t ih =>
    intro acc uid
    simp only [List.foldl_cons, List.filter_cons]
    rw [ih]
    by_cases h : o.1 = uid
    · subst h
      simp
    · simp [h, Ne.symm h]

/-- Counterexample for C6: appending the same (user, item) pair twice
gives that user the history `[0, 0]` — the item appears twice, so it is
not the set of distinct rated items and `sqrt_count` counts it twice. -/
theorem userHistory_distinct_cex :
    (buildIU (Dataset.Append (Dataset.Append NewDataset "u" "a" 5) "u" "a" 4) 0).length = 2 ∧
    ¬ (buildIU (Dataset.Append (Dataset.Append NewDataset "u" "a" 5) "u" "a" 4) 0).Nodup := by
  constructor
  · rfl
  · decide

/-- C6 (amended): `NewSVDpp` builds `user_history[u]` in one pass as the
ordered list of the items of all of `u`'s observations, with multiplicity
(no deduplication); `sqrt_count(u)`'s argument `|user_history[u]|` counts
a repeated (user, item) observation once per occurrence. -/
theorem userHistory_multiplicity (rmat : ℚ → ℚ → ℕ → ℕ → Mat) (d : Dataset)
    (cfg : Option SVDConfig) (uid : ℕ) :
    (NewSVDpp rmat d cfg).IU uid =
      ((d.users.zip d.items).filter (fun o => o.1 = uid)).map Prod.snd ∧
    (NewSVDpp rmat d cfg).IU uid =
      (buildIU d) uid := by
  refine ⟨?_, rfl⟩
  show buildIU d uid = _
  rw [buildIU, buildIU_foldl]
  simp

theorem enumFrom_length (l : List String) : ∀ k, (enumFrom k l).length = l.length := by
  induction l with
  | nil => intro k; rfl
  | cons x xs ih => intro k; simp [enumFrom, ih]

theorem enumFrom_append (l : List String) (s : String) :
    ∀ k, enumFrom k (l ++ [s]) = enumFrom k l ++ [(s, k + l.length)] := by
  induction l with
  | nil => intro k; simp [enumFrom]
  | cons x xs ih =>
    intro k
    show (x, k) :: enumFrom (k + 1) (xs ++ [s]) =
      ((x, k) :: enumFrom (k + 1) xs) ++ [(s, k + (x :: xs).length)]
    have h : k + 1 + xs.length = k + (x :: xs).length := by
      simp only [List.length_cons]
      omega
    rw [ih (k + 1), h]
    simp

theorem lookupId_enumFrom_none_iff (s : String) (l : List String) :
    ∀ k, lookupId (enumFrom k l) s = none ↔ s ∉ l := by
  induction l with
  | nil => intro k; simp [enumFrom, lookupId]
  | cons x xs ih =>
    intro k
    by_cases h : x = s
    · subst h
      simp [enumFrom, lookupId]
    · simp only [enumFrom, lookupId, if_neg h, ih (k + 1), List.mem_cons]
      constructor
      · intro hns hmem
        rcases hmem with hmem | hmem
        · exact h hmem.symm
        · exact hns hmem
      · intro hmem hs
        exact hmem (Or.inr hs)

theorem lookupId_enumFrom_bound (s : String) (l : List String) :
    ∀ k v, lookupId (enumFrom k l) s = some v → k ≤ v ∧ v < k + l.length := by
  induction l with
  | nil => intro k v h; exact absurd h (by simp [enumFrom, lookupId])
  | cons x xs ih =>
    intro k v h
    simp only [enumFrom, lookupId] at h
    by_cases hx : x = s
    · rw [if_pos hx] at h
      obtain rfl : k = v := by injection h
      simp
    · rw [if_neg hx] at h
      have := ih (k + 1) v h
      constructor
      · omega
      · simp only [List.length_cons]
        omega

theorem lookupId_enumFrom_getD (l : List String) (hl : l.Nodup) :
    ∀ (k0 k : ℕ), k < l.length → lookupId (enumFrom k0 l) (l.getD k "") = some (k0 + k) := by
  induction l with
  | nil => intro k0 k hk; simp at hk
  | cons x xs ih =>
    intro k0 k hk
    match k with
    | 0 => simp [enumFrom, lookupId]
    | j + 1 =>
      have hj : j < xs.length := by simpa using hk
      have hmem : xs.getD j "" ∈ xs := by
        rw [List.getD_eq_getElem _ _ hj]
        exact List.getElem_mem hj
      have hx : x ≠ xs.getD j "" := by
        intro hcontra
        exact (List.nodup_cons.mp hl).1 (hcontra ▸ hmem)
      simp only [enumFrom, lookupId, List.getD_cons_succ, if_neg hx]
      rw [ih (List.nodup_cons.mp hl).2 (k0 + 1) j hj]
      congr 1
      omega

theorem seenOrder_append (xs : List String) (x : String) :
    seenOrder (xs ++ [x]) =
      if x ∈ seenOrder xs then seenOrder xs else seenOrder xs ++ [x] := by
  simp [seenOrder, List.foldl_append]

theorem seenOrder_nodup (xs : List String) : (seenOrder xs).Nodup := by
  induction xs using List.reverseRecOn with
  | nil => simp [seenOrder]
  | append_singleton ys y ih =>
    rw [seenOrder_append]
    by_cases h : y ∈ seenOrder ys
    · simpa [h] using ih
    · simp [h, List.nodup_append, ih]

theorem Append_invariant_step (d : Dataset) (us is : List String) (u i : String) (r : ℚ)
    (hu : d.userMap = enumFrom 0 (seenOrder us))
    (hi : d.itemMap = enumFrom 0 (seenOrder is))
    (hbu : ∀ x ∈ d.users, x < d.userMap.length)
    (hbi : ∀ x ∈ d.items, x < d.itemMap.length) :
    (d.Append u i r).users.length = d.users.length + 1 ∧
    (d.Append u i r).items.length = d.items.length + 1 ∧
    (d.Append u i r).ratings.length = d.ratings.length + 1 ∧
    (d.Append u i r).userMap = enumFrom 0 (seenOrder (us ++ [u])) ∧
    (d.Append u i r).itemMap = enumFrom 0 (seenOrder (is ++ [i])) ∧
    (∀ x ∈ (d.Append u i r).users, x < (d.Append u i r).userMap.length) ∧
    (∀ x ∈ (d.Append u i r).items, x < (d.Append u i r).itemMap.length) := by
  rcases hlu : lookupId d.userMap u with _ | v <;>
    rcases hli : lookupId d.itemMap i with _ | w <;>
      simp only [Dataset.Append, getInternalIDs, hlu, hli] <;>
        refine ⟨by simp, by simp, by simp, ?_, ?_, ?_, ?_⟩
  · rw [hu, seenOrder_append,
      if_neg ((lookupId_enumFrom_none_iff u (seenOrder us) 0).mp (hu ▸ hlu)),
      enumFrom_append, enumFrom_length]
    simp
  · rw [hi, seenOrder_append,
      if_neg ((lookupId_enumFrom_none_iff i (seenOrder is) 0).mp (hi ▸ hli)),
      enumFrom_append, enumFrom_length]
    simp
  · intro x hx
    simp only [List.mem_append, List.mem_singleton] at hx
    rcases hx with hx | rfl
    · have := hbu x hx
      simp only [List.length_append, List.length_singleton]
      omega
    · simp only [List.length_append, List.length_singleton]
      omega
  · intro x hx
    simp only [List.mem_append, List.mem_singleton] at hx
    rcases hx with hx | rfl
    · have := hbi x hx
      simp only [List.length_append, List.length_singleton]
      omega
    · simp only [List.length_append, List.length_singleton]
      omega
  · rw [hu, seenOrder_append,
      if_neg ((lookupId_enumFrom_none_iff u (seenOrder us) 0).mp (hu ▸ hlu)),
      enumFrom_append, enumFrom_length]
    simp
  · have hmem : i ∈ seenOrder is := by
      by_contra hmemn
      rw [hi, (lookupId_enumFrom_none_iff i (seenOrder is) 0).mpr hmemn] at hli
      exact Option.noConfusion hli
    rw [hi, seenOrder_append, if_pos hmem]
  · intro x hx
    simp only [List.mem_append, List.mem_singleton] at hx
    rcases hx with hx | rfl
    · have := hbu x hx
      simp only [List.length_append, List.length_singleton]
      omega
    · simp only [List.length_append, List.length_singleton]
      omega
  · intro x hx
    simp only [List.mem_append, List.mem_singleton] at hx
    rcases hx with hx | rfl
    · exact hbi x hx
    · have := lookupId_enumFrom_bound i (seenOrder is) 0 _ (hi ▸ hli)
      rw [hi, enumFrom_length]
      omega
  · have hmem : u ∈ seenOrder us := by
      by_contra hmemn
      rw [hu, (lookupId_enumFrom_none_iff u (seenOrder us) 0).mpr hmemn] at hlu
      exact Option.noConfusion hlu
    rw [hu, seenOrder_append, if_pos hmem]
  · rw [hi, seenOrder_append,
      if_neg ((lookupId_enumFrom_none_iff i (seenOrder is) 0).mp (hi ▸ hli)),
      enumFrom_append, enumFrom_length]
    simp
  · intro x hx
    simp only [List.mem_append, List.mem_singleton] at hx
    rcases hx with hx | rfl
    · exact hbu x hx
    · have := lookupId_enumFrom_bound u (seenOrder us) 0 _ (hu ▸ hlu)
      rw [hu, enumFrom_length]
      omega
  · intro x hx
    simp only [List.mem_append, List.mem_singleton] at hx
    rcases hx with hx | rfl
    · have := hbi x hx
      simp only [List.length_append, List.length_singleton]
      omega
    · simp only [List.length_append, List.length_singleton]
      omega
  · have hmem : u ∈ seenOrder us := by
      by_contra hmemn
      rw [hu, (lookupId_enumFrom_none_iff u (seenOrder us) 0).mpr hmemn] at hlu
      exact Option.noConfusion hlu
    rw [hu, seenOrder_append, if_pos hmem]
  · have hmem : i ∈ seenOrder is := by
      by_contra hmemn
      rw [hi, (lookupId_enumFrom_none_iff i (seenOrder is) 0).mpr hmemn] at hli
      exact Option.noConfusion hli
    rw [hi, seenOrder_append, if_pos hmem]
  · intro x hx
    simp only [List.mem_append, List.mem_singleton] at hx
    rcases hx with hx | rfl
    · exact hbu x hx
    · have := lookupId_enumFrom_bound u (seenOrder us) 0 _ (hu ▸ hlu)
      rw [hu, enumFrom_length]
      omega
  · intro x hx
    simp only [List.mem_append, List.mem_singleton] at hx
    rcases hx with hx | rfl
    · exact hbi x hx
    · have := lookupId_enumFrom_bound i (seenOrder is) 0 _ (hi ▸ hli)
      rw [hi, enumFrom_length]
      omega

theorem appendTriples_invariant (ts : List (String × String × ℚ)) :
    (appendTriples NewDataset ts).users.length = ts.length ∧
    (appendTriples NewDataset ts).items.length = ts.length ∧
    (appendTriples NewDataset ts).ratings.length = ts.length ∧
    (appendTriples NewDataset ts).userMap = enumFrom 0 (seenOrder (ts.map fun t => t.1)) ∧
    (appendTriples NewDataset ts).itemMap = enumFrom 0 (seenOrder (ts.map fun t => t.2.1)) ∧
    (∀ x ∈ (appendTriples NewDataset ts).users,
      x < (appendTriples NewDataset ts).userMap.length) ∧
    (∀ x ∈ (appendTriples NewDataset ts).items,
      x < (appendTriples NewDataset ts).itemMap.length) := by
  induction ts using List.reverseRecOn with
  | nil =>
    refine ⟨rfl, rfl, rfl, rfl, rfl, ?_, ?_⟩ <;> intro x hx <;>
      simp [appendTriples, NewDataset] at hx
  | append_singleton ts t ih =>
    obtain ⟨h1, h2, h3, h4, h5, h6, h7⟩ := ih
    have happ : appendTriples NewDataset (ts ++ [t]) =
        (appendTriples NewDataset ts).Append t.1 t.2.1 t.2.2 := by
      simp [appendTriples, List.foldl_append]
    obtain ⟨s1, s2, s3, s4, s5, s6, s7⟩ := Append_invariant_step
      (appendTriples NewDataset ts) (ts.map fun t' => t'.1) (ts.map fun t' => t'.2.1)
      t.1 t.2.1 t.2.2 h4 h5 h6 h7
    rw [happ]
    refine ⟨?_, ?_, ?_, ?_, ?_, s6, s7⟩
    · rw [s1, h1]; simp
    · rw [s2, h2]; simp
    · rw [s3, h3]; simp
    · rw [s4]; congr 1; simp
    · rw [s5]; congr 1; simp

/-- C8: appending `n` triples (an operation that always succeeds) leaves
the three parallel arrays with length `n`, assigns the `k`-th distinct
user (item) string the id `k − 1` (0-based: the string at position `k` of
the first-seen order has id `k`), and keeps every encoded id strictly
below the size of the corresponding identifier index. -/
theorem dataset_append_invariants (ts : List (String × String × ℚ)) :
    (appendTriples NewDataset ts).users.length = ts.length ∧
    (appendTriples NewDataset ts).items.length = ts.length ∧
    (appendTriples NewDataset ts).ratings.length = ts.length ∧
    (∀ k, k < (seenOrder (ts.map fun t => t.1)).length →
      lookupId (appendTriples NewDataset ts).userMap
        ((seenOrder (ts.map fun t => t.1)).getD k "") = some k) ∧
    (∀ k, k < (seenOrder (ts.map fun t => t.2.1)).length →
      lookupId (appendTriples NewDataset ts).itemMap
        ((seenOrder (ts.map fun t => t.2.1)).getD k "") = some k) ∧
    (∀ x ∈ (appendTriples NewDataset ts).users,
      x < (appendTriples NewDataset ts).userMap.length) ∧
    (∀ x ∈ (appendTriples NewDataset ts).items,
      x < (appendTriples NewDataset ts).itemMap.length) := by
  obtain ⟨h1, h2, h3, h4, h5, h6, h7⟩ := appendTriples_invariant ts
  refine ⟨h1, h2, h3, ?_, ?_, h6, h7⟩
  · intro k hk
    rw [h4]
    simpa using lookupId_enumFrom_getD (seenOrder (ts.map fun t => t.1))
      (seenOrder_nodup _) 0 k hk
  · intro k hk
    rw [h5]
    simpa using lookupId_enumFrom_getD (seenOrder (ts.map fun t => t.2.1))
      (seenOrder_nodup _) 0 k hk

/-- Witness for C8: in `[("a","x",1), ("b","x",2), ("a","y",3)]` the
second distinct user string `"b"` is encoded with id `1`. -/
theorem dataset_append_invariants_witness :
    lookupId (appendTriples NewDataset [("a", "x", 1), ("b", "x", 2), ("a", "y", 3)]).userMap
      ((seenOrder ([("a", "x", (1:ℚ)), ("b", "x", 2), ("a", "y", 3)].map fun t => t.1)).getD 1 "")
      = some 1 :=
  (dataset_append_invariants [("a", "x", 1), ("b", "x", 2), ("a", "y", 3)]).2.2.2.1 1
    (by decide)

/-- C9: every zero-valued config field (and a `nil` config) is replaced
by its documented default — factors 50, init stddev 0.1, learning rate
0.005, regularization 0.02 — never an error; both constructors apply the
substitution, a config with `Reg = 0` builds exactly the same model as
one with `Reg = 0.02`, and a grid search over `Reg = [0]` therefore
trains with the default regularization while its result record echoes 0. -/
theorem config_defaults :
    withDefaults none = ⟨50, 0, 1/10, 5/1000, 2/100, false⟩ ∧
    (∀ c : SVDConfig,
      ((withDefaults (some c)).NumFactors = if c.NumFactors = 0 then 50 else c.NumFactors) ∧
      ((withDefaults (some c)).InitStdDev = if c.InitStdDev = 0 then 1/10 else c.InitStdDev) ∧
      ((withDefaults (some c)).LR = if c.LR = 0 then 5/1000 else c.LR) ∧
      ((withDefaults (some c)).Reg = if c.Reg = 0 then 2/100 else c.Reg) ∧
      (withDefaults (some c)).InitMean = c.InitMean ∧
      (withDefaults (some c)).Verbose = c.Verbose) ∧
    (∀ (rmat : ℚ → ℚ → ℕ → ℕ → Mat) (d : Dataset) (cfg : Option SVDConfig),
      (NewSVD rmat d cfg).Config = withDefaults cfg ∧
      (NewSVDpp rmat d cfg).Config = withDefaults cfg) ∧
    (∀ (rmat : ℚ → ℚ → ℕ → ℕ → Mat) (d : Dataset) (nf : ℕ) (sd lr : ℚ),
      NewSVD rmat d (some ⟨nf, 0, sd, lr, 0, false⟩) =
        NewSVD rmat d (some ⟨nf, 0, sd, lr, 2/100, false⟩)) ∧
    (GridSearch id (fun _ _ _ _ _ _ => 0)
        (appendTriples NewDataset [("u", "a", 4), ("u", "b", 2)])
        (appendTriples NewDataset [("u", "a", 4)])
        ⟨[2], [1], [0], [1/100], [1/10]⟩ =
      GoResult.mapOk (fun loss => [⟨2, 1, 0, 1/100, 1/10, loss⟩])
        (testModel id (fun _ _ _ _ _ _ => 0)
          (appendTriples NewDataset [("u", "a", 4), ("u", "b", 2)])
          (appendTriples NewDataset [("u", "a", 4)])
          2 ⟨1, 0, 1/10, 1/100, 2/100, false⟩
          (reverseMap (appendTriples NewDataset [("u", "a", 4)]).userMap)
          (reverseMap (appendTriples NewDataset [("u", "a", 4)]).itemMap))) := by
  have hdef : ∀ c : SVDConfig,
      ((withDefaults (some c)).NumFactors = if c.NumFactors = 0 then 50 else c.NumFactors) ∧
      ((withDefaults (some c)).InitStdDev = if c.InitStdDev = 0 then 1/10 else c.InitStdDev) ∧
      ((withDefaults (some c)).LR = if c.LR = 0 then 5/1000 else c.LR) ∧
      ((withDefaults (some c)).Reg = if c.Reg = 0 then 2/100 else c.Reg) ∧
      (withDefaults (some c)).InitMean = c.InitMean ∧
      (withDefaults (some c)).Verbose = c.Verbose := by
    intro c
    by_cases h1 : c.NumFactors = 0 <;> by_cases h2 : c.InitStdDev = 0 <;>
      by_cases h3 : c.LR = 0 <;> by_cases h4 : c.Reg = 0 <;>
        simp [withDefaults, h1, h2, h3, h4]
  have hcfg : ∀ (nf : ℕ) (sd lr : ℚ),
      withDefaults (some (⟨nf, 0, sd, lr, 0, false⟩ : SVDConfig)) =
        withDefaults (some ⟨nf, 0, sd, lr, 2/100, false⟩) := by
    intro nf sd lr
    by_cases h1 : nf = 0 <;> by_cases h2 : sd = 0 <;> by_cases h3 : lr = 0 <;>
      simp [withDefaults, h1, h2, h3]
  refine ⟨by norm_num [withDefaults], hdef, ?_, ?_, ?_⟩
  · intro rmat d cfg
    exact ⟨rfl, rfl⟩
  · intro rmat d nf sd lr
    unfold NewSVD
    rw [hcfg nf sd lr]
  · have hm : NewSVD (fun _ _ _ _ _ _ => 0)
        (appendTriples NewDataset [("u", "a", 4), ("u", "b", 2)])
        (some ⟨1, 0, 1/10, 1/100, 0, false⟩) =
        NewSVD (fun _ _ _ _ _ _ => 0)
          (appendTriples NewDataset [("u", "a", 4), ("u", "b", 2)])
          (some ⟨1, 0, 1/10, 1/100, 2/100, false⟩) := by
      unfold NewSVD
      rw [hcfg 1 (1/10) (1/100)]
    have ht : testModel id (fun _ _ _ _ _ _ => 0)
        (appendTriples NewDataset [("u", "a", 4), ("u", "b", 2)])
        (appendTriples NewDataset [("u", "a", 4)])
        2 ⟨1, 0, 1/10, 1/100, 0, false⟩
        (reverseMap (appendTriples NewDataset [("u", "a", 4)]).userMap)
        (reverseMap (appendTriples NewDataset [("u", "a", 4)]).itemMap) =
        testModel id (fun _ _ _ _ _ _ => 0)
          (appendTriples NewDataset [("u", "a", 4), ("u", "b", 2)])
          (appendTriples NewDataset [("u", "a", 4)])
          2 ⟨1, 0, 1/10, 1/100, 2/100, false⟩
          (reverseMap (appendTriples NewDataset [("u", "a", 4)]).userMap)
          (reverseMap (appendTriples NewDataset [("u", "a", 4)]).itemMap) := by
      unfold testModel
      rw [hm]
    unfold GridSearch
    simp only [List.length_cons, List.length_nil, List.foldl_cons, List.foldl_nil]
    rw [if_neg (by norm_num)]
    rw [ht]
    rcases testModel id (fun _ _ _ _ _ _ => 0)
        (appendTriples NewDataset [("u", "a", 4), ("u", "b", 2)])
        (appendTriples NewDataset [("u", "a", 4)])
        2 ⟨1, 0, 1/10, 1/100, 2/100, false⟩
        (reverseMap (appendTriples NewDataset [("u", "a", 4)]).userMap)
        (reverseMap (appendTriples NewDataset [("u", "a", 4)]).itemMap) with loss | msg <;>
      simp [GoResult.mapOk]

/-- Counterexample for C10: `NewSVD` on the empty dataset does not
succeed — its `randMat` call reaches gonum `mat.NewDense` with zero rows,
which panics with `ErrZeroLength` before `GlobalMean` is computed, so no
model exists and no `Predict` is ever evaluated. -/
theorem empty_dataset_newsvd_panics_cex :
    NewSVDF (fun _ _ _ _ _ _ => F64.val 0) NewDataset none =
      GoResult.fatal "mat: zero length in matrix dimension" := by
  simp [NewSVDF, randMatF, NewDataset]

/-- C10 (amended): `DatasetsFromSlices` does accept fraction 1.0 and then
produces an empty train dataset, and the global mean `NewSVD` would
compute there is `0/0 = NaN` under IEEE semantics (and a model in that
state would indeed return NaN from every `Predict`); but `NewSVD` never
reaches that state: on the empty dataset its first `randMat` call panics
inside gonum `mat.NewDense` (`ErrZeroLength`), so construction aborts and
the NaN-prediction state is not reachable through the public interface. -/
theorem empty_dataset_panic :
    DatasetsFromSlices ["a"] ["x"] [5] 1 [0] =
      .ok (NewDataset, NewDataset.Append "a" "x" 5) ∧
    mean32F [] = F64.nan ∧
    (∀ (rnd : ℚ → ℚ → ℕ → ℕ → (ℕ → ℕ → F64)) (cfg : Option SVDConfig),
      NewSVDF rnd NewDataset cfg = .fatal "mat: zero length in matrix dimension") ∧
    (∀ (m : SVDF) (u i : String), m.GlobalMean = F64.nan →
      m.Dataset.userMap = [] → m.Dataset.itemMap = [] →
      SVDF.Predict m u i = F64.nan) := by
  refine ⟨?_, ?_, ?_, ?_⟩
  · have h0 : roundHalfAway ((↑(List.length ["a"]) : ℚ) * (1 - 1)) = 0 := by
      norm_num [roundHalfAway]
    simp only [DatasetsFromSlices, h0]
    rw [if_neg (by norm_num), if_neg (by norm_num)]
    simp [List.getD]
  · simp [mean32F, F64.div]
  · intro rnd cfg
    simp [NewSVDF, randMatF, NewDataset]
  · intro m u i hgm hu hi
    simp [SVDF.Predict, hu, hi, lookupId, hgm]

/-- Witness for C10 (amended): a hand-built model in the (unreachable)
NaN-mean empty-dataset state returns NaN from `Predict`. -/
theorem empty_dataset_panic_witness :
    SVDF.Predict ⟨NewDataset, fun _ _ => F64.val 0, fun _ _ => F64.val 0,
      fun _ => F64.val 0, fun _ => F64.val 0, F64.nan,
      ⟨50, 0, 1/10, 5/1000, 2/100, false⟩⟩ "x" "y" = F64.nan :=
  empty_dataset_panic.2.2.2 _ "x" "y" rfl rfl rfl

theorem sum_map_div (l : List ℕ) (g : ℕ → ℚ) (d : ℚ) :
    (l.map (fun j => g j / d)).sum = (l.map g).sum / d := by
  induction l with
  | nil => simp
  | cons a t ih => simp [ih, add_div]

theorem yjFold_other (lr reg errQIF : ℚ) (f : ℕ) (hist : List ℕ) :
    ∀ (yj : Mat) (j c : ℕ), c ≠ f →
      (hist.foldl (fun ym item =>
        setM ym item f (ym item f + lr * (errQIF - reg * ym item f))) yj) j c = yj j c := by
  induction hist with
  | nil => intro yj j c _; rfl
  | cons a t ih =>
    intro yj j c hc
    simp only [List.foldl_cons]
    rw [ih _ j c hc]
    simp [setM, hc]

theorem yjFold_nodup (lr reg errQIF : ℚ) (f : ℕ) (hist : List ℕ) (hnd : hist.Nodup) :
    ∀ (yj : Mat) (j : ℕ),
      (hist.foldl (fun ym item =>
        setM ym item f (ym item f + lr * (errQIF - reg * ym item f))) yj) j f =
      if j ∈ hist then yj j f + lr * (errQIF - reg * yj j f) else yj j f := by
  induction hist with
  | nil => intro yj j; simp
  | cons a t ih =>
    intro yj j
    obtain ⟨hna, hnt⟩ := List.nodup_cons.mp hnd
    simp only [List.foldl_cons]
    rw [ih hnt]
    by_cases hjt : j ∈ t
    · have hja : j ≠ a := fun h => hna (h ▸ hjt)
      rw [if_pos hjt, if_pos (List.mem_cons.mpr (Or.inr hjt))]
      simp [setM, hja]
    · rw [if_neg hjt]
      by_cases hja : j = a
      · subst hja
        rw [if_pos (List.mem_cons.mpr (Or.inl rfl))]
        simp [setM]
      · rw [if_neg (fun h => (List.mem_cons.mp h).elim hja hjt)]
        simp [setM, hja]

theorem sppFactorLoop_apply (sqrtFn : ℚ → ℚ) (lr reg err : ℚ) (u i : ℕ)
    (hist : List ℕ) (uImp : ℕ → ℚ) (pu qi yj : Mat) :
    ∀ nf : ℕ,
      (∀ r c, (sppFactorLoop sqrtFn lr reg err u i nf hist uImp pu qi yj).1 r c =
        if r = u ∧ c < nf then pu u c + lr * (err * qi i c - reg * pu u c)
        else pu r c) ∧
      (∀ r c, (sppFactorLoop sqrtFn lr reg err u i nf hist uImp pu qi yj).2.1 r c =
        if r = i ∧ c < nf then qi i c + lr * (err * (pu u c + uImp c) - reg * qi i c)
        else qi r c) ∧
      (hist.Nodup → ∀ j c,
        (sppFactorLoop sqrtFn lr reg err u i nf hist uImp pu qi yj).2.2 j c =
          if j ∈ hist ∧ c < nf then
            yj j c + lr * (err * qi i c / sqrtFn (hist.length : ℚ) - reg * yj j c)
          else yj j c) := by
  intro nf
  induction nf with
  | zero =>
    refine ⟨?_, ?_, ?_⟩
    · intro r c; simp [sppFactorLoop]
    · intro r c; simp [sppFactorLoop]
    · intro _ j c; simp [sppFactorLoop]
  | succ n ih =>
    obtain ⟨ih1, ih2, ih3⟩ := ih
    have hA1 : (sppFactorLoop sqrtFn lr reg err u i n hist uImp pu qi yj).1 u n = pu u n := by
      rw [ih1 u n]; simp
    have hA2 : (sppFactorLoop sqrtFn lr reg err u i n hist uImp pu qi yj).2.1 i n = qi i n := by
      rw [ih2 i n]; simp
    have hstep : sppFactorLoop sqrtFn lr reg err u i (n + 1) hist uImp pu qi yj =
        (setM (sppFactorLoop sqrtFn lr reg err u i n hist uImp pu qi yj).1 u n
           ((sppFactorLoop sqrtFn lr reg err u i n hist uImp pu qi yj).1 u n +
             lr * (err * (sppFactorLoop sqrtFn lr reg err u i n hist uImp pu qi yj).2.1 i n -
               reg * (sppFactorLoop sqrtFn lr reg err u i n hist uImp pu qi yj).1 u n)),
         setM (sppFactorLoop sqrtFn lr reg err u i n hist uImp pu qi yj).2.1 i n
           ((sppFactorLoop sqrtFn lr reg err u i n hist uImp pu qi yj).2.1 i n +
             lr * (err * ((sppFactorLoop sqrtFn lr reg err u i n hist uImp pu qi yj).1 u n + uImp n) -
               reg * (sppFactorLoop sqrtFn lr reg err u i n hist uImp pu qi yj).2.1 i n)),
         hist.foldl (fun ym item =>
             setM ym item n (ym item n +
               lr * (err * (sppFactorLoop sqrtFn lr reg err u i n hist uImp pu qi yj).2.1 i n /
                   sqrtFn (hist.length : ℚ) -
                 reg * ym item n)))
           (sppFactorLoop sqrtFn lr reg err u i n hist uImp pu qi yj).2.2) := by
      simp [sppFactorLoop, List.range_succ]
    refine ⟨?_, ?_, ?_⟩
    · intro r c
      rw [hstep]
      simp only [setM, hA1, hA2]
      by_cases hr : r = u
      · by_cases hc : c = n
        · rw [if_pos ⟨hr, hc⟩, if_pos ⟨hr, by omega⟩, hc]
        · rw [if_neg (fun h => hc h.2), ih1 r c]
          by_cases hcn : c < n
          · rw [if_pos ⟨hr, hcn⟩, if_pos ⟨hr, by omega⟩]
          · rw [if_neg (fun h => hcn h.2), if_neg (fun h => absurd h.2 (by omega))]
      · rw [if_neg (fun h => hr h.1), ih1 r c, if_neg (fun h => hr h.1),
          if_neg (fun h => hr h.1)]
    · intro r c
      rw [hstep]
      simp only [setM, hA1, hA2]
      by_cases hr : r = i
      · by_cases hc : c = n
        · rw [if_pos ⟨hr, hc⟩, if_pos ⟨hr, by omega⟩, hc]
        · rw [if_neg (fun h => hc h.2), ih2 r c]
          by_cases hcn : c < n
          · rw [if_pos ⟨hr, hcn⟩, if_pos ⟨hr, by omega⟩]
          · rw [if_neg (fun h => hcn h.2), if_neg (fun h => absurd h.2 (by omega))]
      · rw [if_neg (fun h => hr h.1), ih2 r c, if_neg (fun h => hr h.1),
          if_neg (fun h => hr h.1)]
    · intro hnd j c
      rw [hstep]
      dsimp only
      by_cases hc : c = n
      · subst hc
        rw [yjFold_nodup lr reg _ c hist hnd]
        have hA3n : (sppFactorLoop sqrtFn lr reg err u i c hist uImp pu qi yj).2.2 j c
            = yj j c := by
          rw [ih3 hnd j c, if_neg (fun h => absurd h.2 (by omega))]
        rw [hA3n, hA2]
        by_cases hj : j ∈ hist
        · rw [if_pos hj, if_pos ⟨hj, by omega⟩]
        · rw [if_neg hj, if_neg (fun h => hj h.1)]
      · rw [yjFold_other lr reg _ n hist _ j c hc, ih3 hnd j c]
        by_cases hb : j ∈ hist ∧ c < n
        · rw [if_pos hb, if_pos ⟨hb.1, by omega⟩]
        · rw [if_neg hb, if_neg (fun h => hb ⟨h.1, by omega⟩)]

/-- C2: each `SVDpp.Fit` observation first computes
`user_implicit[f] = (Σ_{j ∈ history} YJ[j,f]) / sqrt_count(u)` from the
pre-update `YJ`, uses `dot = Σ_f (PU[u,f] + user_implicit[f])·QI[i,f]` in
the error, updates `QI[i,f]` with `err·(PU[u,f] + user_implicit[f])`,
`PU[u,f]` with `err·QI[i,f]`, and then updates
`YJ[j,f] += lr·(err·QI[i,f]/sqrt_count(u) − reg·YJ[j,f])` for every item
`j` of the user's whole history (items other than the rated item `i`
included; entries outside the history are untouched). -/
theorem svdpp_fit_update_equations (sqrtFn : ℚ → ℚ) (lr reg gm : ℚ) (nf : ℕ)
    (iu : ℕ → List ℕ) (s : SGDppState) (u i : ℕ) (r : ℚ)
    (hnd : (iu u).Nodup)
    (sqrtU : ℚ) (hsq : sqrtU = sqrtFn (((iu u).length : ℕ) : ℚ))
    (uI : ℕ → ℚ) (huI : ∀ f, uI f = ((iu u).map (fun j => s.yj j f)).sum / sqrtU)
    (err : ℚ) (herr : err = r - (gm + s.bu u + s.bi i +
      ∑ g ∈ Finset.range nf, (s.pu u g + uI g) * s.qi i g)) :
    (∀ f, uImpFdbOf sqrtFn s.yj (iu u) f = uI f) ∧
    (sppStep sqrtFn lr reg gm nf iu s (u, i, r)).bu u =
      s.bu u + lr * (err - reg * s.bu u) ∧
    (sppStep sqrtFn lr reg gm nf iu s (u, i, r)).bi i =
      s.bi i + lr * (err - reg * s.bi i) ∧
    (∀ f, f < nf →
      (sppStep sqrtFn lr reg gm nf iu s (u, i, r)).pu u f =
        s.pu u f + lr * (err * s.qi i f - reg * s.pu u f) ∧
      (sppStep sqrtFn lr reg gm nf iu s (u, i, r)).qi i f =
        s.qi i f + lr * (err * (s.pu u f + uI f) - reg * s.qi i f) ∧
      (∀ j ∈ iu u, (sppStep sqrtFn lr reg gm nf iu s (u, i, r)).yj j f =
        s.yj j f + lr * (err * s.qi i f / sqrtU - reg * s.yj j f)) ∧
      (∀ j, j ∉ iu u → (sppStep sqrtFn lr reg gm nf iu s (u, i, r)).yj j f = s.yj j f)) := by
  have hImp : ∀ f, uImpFdbOf sqrtFn s.yj (iu u) f = uI f := by
    intro f
    rw [uImpFdbOf, sum_map_div, huI f, hsq]
  have hE : ((List.range nf).map
      (fun g => (s.pu u g + uImpFdbOf sqrtFn s.yj (iu u) g) * s.qi i g)).sum =
      ∑ g ∈ Finset.range nf, (s.pu u g + uI g) * s.qi i g := by
    rw [sum_range_list]
    exact Finset.sum_congr rfl (fun g _ => by rw [hImp g])
  obtain ⟨hpu, hqi, hyj⟩ := sppFactorLoop_apply sqrtFn lr reg
    (r - (gm + s.bu u + s.bi i + ((List.range nf).map
      (fun g => (s.pu u g + uImpFdbOf sqrtFn s.yj (iu u) g) * s.qi i g)).sum))
    u i (iu u) (uImpFdbOf sqrtFn s.yj (iu u)) s.pu s.qi s.yj nf
  refine ⟨hImp, ?_, ?_, ?_⟩
  · show setV s.bu u _ u = _
    rw [setV, if_pos rfl, hE, ← herr]
  · show setV s.bi i _ i = _
    rw [setV, if_pos rfl, hE, ← herr]
  · intro f hf
    refine ⟨?_, ?_, ?_, ?_⟩
    · show (sppFactorLoop sqrtFn lr reg _ u i nf (iu u)
        (uImpFdbOf sqrtFn s.yj (iu u)) s.pu s.qi s.yj).1 u f = _
      rw [hpu u f, if_pos ⟨rfl, hf⟩, hE, ← herr]
    · show (sppFactorLoop sqrtFn lr reg _ u i nf (iu u)
        (uImpFdbOf sqrtFn s.yj (iu u)) s.pu s.qi s.yj).2.1 i f = _
      rw [hqi i f, if_pos ⟨rfl, hf⟩, hE, ← herr, hImp f]
    · intro j hj
      show (sppFactorLoop sqrtFn lr reg _ u i nf (iu u)
        (uImpFdbOf sqrtFn s.yj (iu u)) s.pu s.qi s.yj).2.2 j f = _
      rw [hyj hnd j f, if_pos ⟨hj, hf⟩, hE, ← herr, ← hsq]
    · intro j hj
      show (sppFactorLoop sqrtFn lr reg _ u i nf (iu u)
        (uImpFdbOf sqrtFn s.yj (iu u)) s.pu s.qi s.yj).2.2 j f = _
      rw [hyj hnd j f, if_neg (fun h => hj h.1)]

/-- Witness for C2: concrete one-factor instance with history `[0]`. -/
theorem svdpp_fit_update_equations_witness :
    (sppStep id 1 0 0 1 (fun _ => [0])
      ⟨fun _ _ => 1, fun _ _ => 1, fun _ _ => 1, fun _ => 0, fun _ => 0⟩ (0, 0, 5)).qi 0 0 = 7 ∧
    (sppStep id 1 0 0 1 (fun _ => [0])
      ⟨fun _ _ => 1, fun _ _ => 1, fun _ _ => 1, fun _ => 0, fun _ => 0⟩ (0, 0, 5)).yj 0 0 = 4 := by
  have h := svdpp_fit_update_equations id 1 0 0 1 (fun _ => [0])
    ⟨fun _ _ => 1, fun _ _ => 1, fun _ _ => 1, fun _ => 0, fun _ => 0⟩ 0 0 5
    (by decide) 1 (by norm_num) (fun _ => 1) (fun f => by norm_num) 3
    (by norm_num [Finset.sum_range_succ])
  obtain ⟨-, -, -, hmain⟩ := h
  obtain ⟨-, hq, hy, -⟩ := hmain 0 (by norm_num)
  constructor
  · rw [hq]
    norm_num
  · rw [hy 0 (by decide)]
    norm_num

/-- Counterexample for C5: with 5 observations and fraction 0.1 the test
set is empty (`trainNum = round(5·0.9) = 5`), while `round(5·0.1) = 1`,
so `|test| ≠ round(n·fraction)`. -/
theorem datasetsFromSlices_fraction_cex :
    (DatasetsFromSlices ["a", "b", "c", "d", "e"] ["a", "b", "c", "d", "e"]
        [1, 2, 3, 4, 5] (1/10) [0, 1, 2, 3, 4]).toOption.map
      (fun ds => ds.2.ratings.length) = some 0 ∧
    roundHalfAway ((5 : ℚ) * (1/10)) = 1 := by
  constructor
  · have h5 : roundHalfAway ((↑(List.length ["a", "b", "c", "d", "e"]) : ℚ) * (1 - 1/10)) = 5 := by
      simp only [roundHalfAway]
      rw [if_neg (by norm_num)]
      exact Int.floor_eq_iff.mpr (by norm_num)
    simp only [DatasetsFromSlices, h5]
    rw [if_neg (by norm_num), if_neg (by norm_num)]
    simp
    refine ⟨_, _, rfl, rfl⟩
  · simp only [roundHalfAway]
    rw [if_neg (by norm_num)]
    exact Int.floor_eq_iff.mpr (by norm_num)

/-- C5 (amended): with equal-length slices and a fraction in `[0,1]`,
`DatasetsFromSlices` partitions the `n` observations between the two
returned datasets (the concatenation of the triples fed to the two
datasets is a permutation of the input triples, despite the double
permutation indexing `u[p[j]]` for `j ∈ p`);
`|train| = round(n·(1−fraction))` and `|test| = n − round(n·(1−fraction))`
(not `round(n·fraction)`, which differs at halves). Mismatched lengths
and out-of-range fractions return recoverable errors. -/
theorem datasetsFromSlices_spec (u i : List String) (r : List ℚ) (split : ℚ) (p : List ℕ)
    (hui : u.length = i.length) (hur : u.length = r.length)
    (h0 : 0 ≤ split) (h1 : split ≤ 1) (hp : p.Perm (List.range u.length))
    (tn : ℕ) (htn : tn = (roundHalfAway ((u.length : ℚ) * (1 - split))).toNat)
    (sel : ℕ → String × String × ℚ)
    (hsel : ∀ j, sel j =
      (u.getD (p.getD j 0) "", i.getD (p.getD j 0) "", r.getD (p.getD j 0) 0)) :
    DatasetsFromSlices u i r split p =
      .ok (appendTriples NewDataset ((p.take tn).map sel),
           appendTriples NewDataset ((p.drop tn).map sel)) ∧
    (appendTriples NewDataset ((p.take tn).map sel)).ratings.length = tn ∧
    (appendTriples NewDataset ((p.drop tn).map sel)).ratings.length = u.length - tn ∧
    ((p.take tn).map sel ++ (p.drop tn).map sel).Perm (u.zip (i.zip r)) ∧
    (∀ u' i' : List String, ∀ r' : List ℚ, ∀ p' : List ℕ,
      u'.length ≠ i'.length ∨ u'.length ≠ r'.length →
      DatasetsFromSlices u' i' r' split p' =
        .error "u, i and r slices must be the same length") ∧
    (∀ s' : ℚ, s' < 0 ∨ 1 < s' →
      DatasetsFromSlices u i r s' p =
        .error "split must be between 0 and 1") := by
  have hplen : p.length = u.length := by
    rw [hp.length_eq, List.length_range]
  have htn_le : tn ≤ u.length := by
    rw [htn, Int.toNat_le]
    simp only [roundHalfAway]
    rw [if_neg (not_lt.mpr (mul_nonneg (Nat.cast_nonneg _) (by linarith)))]
    have hmul : (u.length : ℚ) * (1 - split) ≤ (u.length : ℚ) := by
      nlinarith [Nat.cast_nonneg (α := ℚ) u.length]
    have hlt : ⌊(u.length : ℚ) * (1 - split) + 1/2⌋ < (u.length : ℤ) + 1 := by
      rw [Int.floor_lt]
      push_cast
      linarith
    omega
  have htr : ∀ (l : List ℕ),
      l.foldl (fun d j => d.Append (u.getD (p.getD j 0) "") (i.getD (p.getD j 0) "")
        (r.getD (p.getD j 0) 0)) NewDataset =
      appendTriples NewDataset (l.map sel) := by
    intro l
    rw [appendTriples, List.foldl_map]
    congr 1
    funext d j
    rw [hsel j]
  refine ⟨?_, ?_, ?_, ?_, ?_, ?_⟩
  · simp only [DatasetsFromSlices]
    rw [if_neg (by simp [← hui, ← hur]), if_neg (by push_neg; exact ⟨h0, h1⟩), ← htn,
      htr (p.take tn), htr (p.drop tn)]
  · rw [(appendTriples_invariant ((p.take tn).map sel)).2.2.1]
    rw [List.length_map, List.length_take, hplen]
    omega
  · rw [(appendTriples_invariant ((p.drop tn).map sel)).2.2.1]
    rw [List.length_map, List.length_drop, hplen]
  · rw [← List.map_append, List.take_append_drop]
    have hmapsel : ∀ (l : List ℕ), l.map sel =
        (l.map (fun j => p.getD j 0)).map
          (fun k => (u.getD k "", i.getD k "", r.getD k 0)) := by
      intro l
      rw [List.map_map]
      exact List.map_congr_left (fun j _ => by simp [hsel j, Function.comp])
    have hpp : (List.range u.length).map (fun j => p.getD j 0) = p := by
      apply List.ext_getElem
      · simp [hplen]
      · intro k h1' h2'
        simp only [List.getElem_map, List.getElem_range]
        exact List.getD_eq_getElem p 0 h2'
    have hzip : (List.range u.length).map
        (fun k => (u.getD k "", i.getD k "", r.getD k 0)) = u.zip (i.zip r) := by
      apply List.ext_getElem
      · simp only [List.length_map, List.length_range, List.length_zip]
        omega
      · intro k h1' h2'
        have hk : k < u.length := by simpa using h1'
        simp only [List.getElem_map, List.getElem_range, List.getElem_zip]
        rw [List.getD_eq_getElem u "" hk, List.getD_eq_getElem i "" (by omega),
          List.getD_eq_getElem r 0 (by omega)]
    rw [hmapsel p, ← hzip]
    apply List.Perm.map
    exact (hp.map _).trans (by rw [hpp]; exact hp)
  · intro u' i' r' p' hne
    simp only [DatasetsFromSlices]
    rw [if_pos]
    rcases hne with hne | hne
    · exact Or.inl hne
    · exact Or.inr hne
  · intro s' hs
    simp only [DatasetsFromSlices]
    rw [if_neg (by simp [← hui, ← hur]), if_pos hs]

/-- Witness for C5: five observations at fraction `2/5` give a test set
of `5 − round(5·(3/5)) = 2` observations. -/
theorem datasetsFromSlices_spec_witness :
    (appendTriples NewDataset (([0, 1, 2, 3, 4].drop 3).map
      (fun j => (["a", "b", "c", "d", "e"].getD ([0, 1, 2, 3, 4].getD j 0) "",
        ["f", "g", "h", "j", "k"].getD ([0, 1, 2, 3, 4].getD j 0) "",
        [1, 2, 3, 4, 5].getD ([0, 1, 2, 3, 4].getD j 0) (0 : ℚ))))).ratings.length = 5 - 3 := by
  have hf : roundHalfAway ((↑(List.length ["a", "b", "c", "d", "e"]) : ℚ) * (1 - 2/5)) = 3 := by
    simp only [roundHalfAway]
    rw [if_neg (by norm_num)]
    exact Int.floor_eq_iff.mpr (by norm_num)
  have h := datasetsFromSlices_spec ["a", "b", "c", "d", "e"] ["f", "g", "h", "j", "k"]
    [1, 2, 3, 4, 5] (2/5) [0, 1, 2, 3, 4] rfl rfl (by norm_num) (by norm_num)
    (by decide) 3 (by rw [hf]; rfl) _ (fun j => rfl)
  exact h.2.2.1

theorem foldl_okAppend {α β : Type} :
    ∀ (l : List α) (G : GoResult (List β) → α → GoResult (List β)) (out : α → List β),
      (∀ x ∈ l, ∀ ts, G (.ok ts) x = .ok (ts ++ out x)) →
      ∀ ts0 : List β, l.foldl G (.ok ts0) = .ok (ts0 ++ l.flatMap out) := by
  intro l
  induction l with
  | nil => intro G out hok ts0; simp
  | cons x t ih =>
    intro G out hok ts0
    simp only [List.foldl_cons]
    rw [hok x (List.mem_cons_self x t) ts0,
      ih G out (fun y hy ts => hok y (List.mem_cons_of_mem x hy) ts) (ts0 ++ out x)]
    simp [List.append_assoc]

theorem flatMap_singleton_map {α β : Type} (l : List α) (f : α → β) :
    l.flatMap (fun x => [f x]) = l.map f := by
  induction l with
  | nil => rfl
  | cons x t ih => simp [ih]

theorem length_flatMap_const {α β : Type} (l : List α) (f : α → List β) (c : ℕ)
    (hf : ∀ x ∈ l, (f x).length = c) : (l.flatMap f).length = l.length * c := by
  induction l with
  | nil => simp
  | cons x t ih =>
    simp only [List.flatMap_cons, List.length_append, List.length_cons]
    rw [hf x (List.mem_cons_self x t), ih (fun y hy => hf y (List.mem_cons_of_mem x hy))]
    ring

/-- C7: with non-empty hyperparameter lists, `GridSearch` emits exactly
one result per combination of the five-list cross product, in the fixed
nested order (epochs outer → factors → reg → lr → init-stddev innermost),
each result echoing its combination's hyperparameters together with the
loss computed by `testModel` (a fresh `SVD` trained on the train dataset
and scored on the test dataset through the original string identifiers);
the result count is the product of the list lengths. -/
theorem gridSearch_cross_product (sqrtFn : ℚ → ℚ) (rmat : ℚ → ℚ → ℕ → ℕ → Mat)
    (trainset testset : Dataset) (p : GridSearchParams)
    (lossOf : ℕ → ℕ → ℚ → ℚ → ℚ → ℚ)
    (hne : p.NumEpochs ≠ [] ∧ p.NumFactors ≠ [] ∧ p.Reg ≠ [] ∧
      p.LR ≠ [] ∧ p.InitStdDev ≠ [])
    (h : ∀ ne ∈ p.NumEpochs, ∀ nf ∈ p.NumFactors, ∀ rg ∈ p.Reg, ∀ lr ∈ p.LR,
      ∀ sd ∈ p.InitStdDev,
      testModel sqrtFn rmat trainset testset ne (⟨nf, 0, sd, lr, rg, false⟩ : SVDConfig)
        (reverseMap testset.userMap) (reverseMap testset.itemMap) =
        .ok (lossOf ne nf rg lr sd)) :
    GridSearch sqrtFn rmat trainset testset p = .ok (gridResults lossOf p) ∧
    (gridResults lossOf p).length = p.NumEpochs.length * p.NumFactors.length *
      p.Reg.length * p.LR.length * p.InitStdDev.length := by
  obtain ⟨hne1, hne2, hne3, hne4, hne5⟩ := hne
  have hsd : ∀ ne ∈ p.NumEpochs, ∀ nf ∈ p.NumFactors, ∀ rg ∈ p.Reg, ∀ lr ∈ p.LR,
      ∀ ts : List GridSearchTestResult,
      p.InitStdDev.foldl (fun acc initStdDev =>
        match acc with
        | GoResult.fatal msg => GoResult.fatal msg
        | GoResult.ok tests =>
          match testModel sqrtFn rmat trainset testset ne
              (⟨nf, 0, initStdDev, lr, rg, false⟩ : SVDConfig)
              (reverseMap testset.userMap) (reverseMap testset.itemMap) with
          | GoResult.fatal msg => GoResult.fatal msg
          | GoResult.ok loss =>
            GoResult.ok (tests ++ [GridSearchTestResult.mk ne nf rg lr initStdDev loss])) (.ok ts) =
      .ok (ts ++ p.InitStdDev.flatMap (fun sd =>
        [GridSearchTestResult.mk ne nf rg lr sd (lossOf ne nf rg lr sd)])) := by
    intro ne hn1 nf hn2 rg hn3 lr hn4 ts
    refine foldl_okAppend p.InitStdDev _ _ ?_ ts
    intro sd hn5 ts'
    show (match testModel sqrtFn rmat trainset testset ne
        (⟨nf, 0, sd, lr, rg, false⟩ : SVDConfig)
        (reverseMap testset.userMap) (reverseMap testset.itemMap) with
      | GoResult.fatal msg => GoResult.fatal msg
      | GoResult.ok loss =>
        GoResult.ok (ts' ++ [GridSearchTestResult.mk ne nf rg lr sd loss])) = _
    rw [h ne hn1 nf hn2 rg hn3 lr hn4 sd hn5]
  have hlr : ∀ ne ∈ p.NumEpochs, ∀ nf ∈ p.NumFactors, ∀ rg ∈ p.Reg,
      ∀ ts : List GridSearchTestResult,
      p.LR.foldl (fun acc lr =>
        p.InitStdDev.foldl (fun acc initStdDev =>
          match acc with
          | GoResult.fatal msg => GoResult.fatal msg
          | GoResult.ok tests =>
            match testModel sqrtFn rmat trainset testset ne
                (⟨nf, 0, initStdDev, lr, rg, false⟩ : SVDConfig)
                (reverseMap testset.userMap) (reverseMap testset.itemMap) with
            | GoResult.fatal msg => GoResult.fatal msg
            | GoResult.ok loss =>
              GoResult.ok (tests ++ [GridSearchTestResult.mk ne nf rg lr initStdDev loss])) acc) (.ok ts) =
      .ok (ts ++ p.LR.flatMap (fun lr => p.InitStdDev.flatMap (fun sd =>
        [GridSearchTestResult.mk ne nf rg lr sd (lossOf ne nf rg lr sd)]))) := by
    intro ne hn1 nf hn2 rg hn3 ts
    refine foldl_okAppend p.LR _ _ ?_ ts
    intro lr hn4 ts'
    exact hsd ne hn1 nf hn2 rg hn3 lr hn4 ts'
  have hrg : ∀ ne ∈ p.NumEpochs, ∀ nf ∈ p.NumFactors,
      ∀ ts : List GridSearchTestResult,
      p.Reg.foldl (fun acc rg =>
        p.LR.foldl (fun acc lr =>
          p.InitStdDev.foldl (fun acc initStdDev =>
            match acc with
            | GoResult.fatal msg => GoResult.fatal msg
            | GoResult.ok tests =>
              match testModel sqrtFn rmat trainset testset ne
                  (⟨nf, 0, initStdDev, lr, rg, false⟩ : SVDConfig)
                  (reverseMap testset.userMap) (reverseMap testset.itemMap) with
              | GoResult.fatal msg => GoResult.fatal msg
              | GoResult.ok loss =>
                GoResult.ok (tests ++ [GridSearchTestResult.mk ne nf rg lr initStdDev loss])) acc) acc)
        (.ok ts) =
      .ok (ts ++ p.Reg.flatMap (fun rg => p.LR.flatMap (fun lr =>
        p.InitStdDev.flatMap (fun sd =>
          [GridSearchTestResult.mk ne nf rg lr sd (lossOf ne nf rg lr sd)])))) := by
    intro ne hn1 nf hn2 ts
    refine foldl_okAppend p.Reg _ _ ?_ ts
    intro rg hn3 ts'
    exact hlr ne hn1 nf hn2 rg hn3 ts'
  have hnf : ∀ ne ∈ p.NumEpochs, ∀ ts : List GridSearchTestResult,
      p.NumFactors.foldl (fun acc numFactors =>
        p.Reg.foldl (fun acc rg =>
          p.LR.foldl (fun acc lr =>
            p.InitStdDev.foldl (fun acc initStdDev =>
              match acc with
              | GoResult.fatal msg => GoResult.fatal msg
              | GoResult.ok tests =>
                match testModel sqrtFn rmat trainset testset ne
                    (⟨numFactors, 0, initStdDev, lr, rg, false⟩ : SVDConfig)
                    (reverseMap testset.userMap) (reverseMap testset.itemMap) with
                | GoResult.fatal msg => GoResult.fatal msg
                | GoResult.ok loss =>
                  GoResult.ok (tests ++ [GridSearchTestResult.mk ne numFactors rg lr initStdDev loss]))
              acc) acc) acc) (.ok ts) =
      .ok (ts ++ p.NumFactors.flatMap (fun nf => p.Reg.flatMap (fun rg =>
        p.LR.flatMap (fun lr => p.InitStdDev.flatMap (fun sd =>
          [GridSearchTestResult.mk ne nf rg lr sd (lossOf ne nf rg lr sd)]))))) := by
    intro ne hn1 ts
    refine foldl_okAppend p.NumFactors _ _ ?_ ts
    intro nf hn2 ts'
    exact hrg ne hn1 nf hn2 ts'
  have hep : ∀ ts : List GridSearchTestResult,
      p.NumEpochs.foldl (fun acc numEpochs =>
        p.NumFactors.foldl (fun acc numFactors =>
          p.Reg.foldl (fun acc rg =>
            p.LR.foldl (fun acc lr =>
              p.InitStdDev.foldl (fun acc initStdDev =>
                match acc with
                | GoResult.fatal msg => GoResult.fatal msg
                | GoResult.ok tests =>
                  match testModel sqrtFn rmat trainset testset numEpochs
                      (⟨numFactors, 0, initStdDev, lr, rg, false⟩ : SVDConfig)
                      (reverseMap testset.userMap) (reverseMap testset.itemMap) with
                  | GoResult.fatal msg => GoResult.fatal msg
                  | GoResult.ok loss =>
                    GoResult.ok (tests ++ [GridSearchTestResult.mk numEpochs numFactors rg lr initStdDev loss]))
                acc) acc) acc) acc) (.ok ts) =
      .ok (ts ++ p.NumEpochs.flatMap (fun ne => p.NumFactors.flatMap (fun nf =>
        p.Reg.flatMap (fun rg => p.LR.flatMap (fun lr =>
          p.InitStdDev.flatMap (fun sd =>
            [GridSearchTestResult.mk ne nf rg lr sd (lossOf ne nf rg lr sd)])))))) := by
    intro ts
    refine foldl_okAppend p.NumEpochs _ _ ?_ ts
    intro ne hn1 ts'
    exact hnf ne hn1 ts'
  have hflat : p.NumEpochs.flatMap (fun ne => p.NumFactors.flatMap (fun nf =>
      p.Reg.flatMap (fun rg => p.LR.flatMap (fun lr =>
        p.InitStdDev.flatMap (fun sd =>
          [GridSearchTestResult.mk ne nf rg lr sd (lossOf ne nf rg lr sd)]))))) = gridResults lossOf p := by
    simp only [gridResults, flatMap_singleton_map]
  constructor
  · have hpos : 0 < p.NumEpochs.length * p.NumFactors.length * p.Reg.length *
        p.LR.length * p.InitStdDev.length := by
      have l1 := List.length_pos.mpr hne1
      have l2 := List.length_pos.mpr hne2
      have l3 := List.length_pos.mpr hne3
      have l4 := List.length_pos.mpr hne4
      have l5 := List.length_pos.mpr hne5
      positivity
    have hmain : GridSearch sqrtFn rmat trainset testset p =
        .ok ([] ++ gridResults lossOf p) := by
      unfold GridSearch
      rw [if_neg (by omega)]
      rw [← hflat]
      exact hep []
    rw [hmain]
    simp
  · rw [← hflat]
    rw [length_flatMap_const _ _ (p.NumFactors.length * p.Reg.length * p.LR.length *
        p.InitStdDev.length) ?_]
    · ring
    intro ne _
    rw [length_flatMap_const _ _ (p.Reg.length * p.LR.length * p.InitStdDev.length) ?_]
    · ring
    intro nf _
    rw [length_flatMap_const _ _ (p.LR.length * p.InitStdDev.length) ?_]
    · ring
    intro rg _
    rw [length_flatMap_const _ _ p.InitStdDev.length ?_]
    intro lr _
    rw [length_flatMap_const _ _ 1 ?_]
    · omega
    · intro sd _
      rfl

/-- Witness for C7: lists of sizes {1,3,1,1,1} produce exactly 3 results. -/
theorem gridSearch_cross_product_witness :
    GridSearch id (fun _ _ _ _ _ _ => 0) NewDataset NewDataset
      ⟨[1], [1, 2, 3], [1/50], [1/100], [1/10]⟩ =
      GoResult.ok (gridResults (fun _ _ _ _ _ => 0)
        ⟨[1], [1, 2, 3], [1/50], [1/100], [1/10]⟩) ∧
    (gridResults (fun _ _ _ _ _ => (0 : ℚ))
      ⟨[1], [1, 2, 3], [1/50], [1/100], [1/10]⟩).length = 3 := by
  have h := gridSearch_cross_product id (fun _ _ _ _ _ _ => 0) NewDataset NewDataset
    ⟨[1], [1, 2, 3], [1/50], [1/100], [1/10]⟩ (fun _ _ _ _ _ => 0)
    ⟨by simp, by simp, by simp, by simp, by simp⟩
    (fun ne _ nf _ rg _ lr _ sd _ => by
      simp [testModel, collectPreds, obsList, RMSE, NewDataset])
  refine ⟨h.1, ?_⟩
  rw [h.2]
  rfl

end Colfi
